import Mathlib

/-!
Shallow embedding of the attendance bot in `src/main.py` (pyTelegramBotAPI +
SQLite).  Timestamps and durations are modelled as integers (seconds since the
epoch); the SQLite `users` table is modelled as a list of rows, SQL `UPDATE ...
WHERE` as a map over the rows, `SELECT ... WHERE user_id = ?` + `fetchone` as
`List.find?`.  `NULL`-able columns are `Option`.  Python truthiness on strings
(non-`None` and non-empty) and on datetimes (non-`None`) is modelled explicitly.
The wall clock (`datetime.now(timezone.utc)`) is threaded as an explicit `now`
argument; within one handler the source reads the clock several times a few
microseconds apart, which we model as a single evaluation time.
-/

namespace Attendance

/-- Config constants from the CONFIG block of `src/main.py`, in seconds
(`INACTIVE_THRESHOLD = timedelta(hours=24)`, `INACTIVE_PERIOD = timedelta(days=1)`). -/
def INACTIVE_THRESHOLD : Int := 24 * 60 * 60

def INACTIVE_PERIOD : Int := 24 * 60 * 60

def MINUTES_REDUCED_PER_MESSAGE : Int := 1

def MESSAGES_TO_CLEAR_INACTIVE : Int := 15

def PAGE_SIZE : Nat := 10

/-- One row of the `users` table (see `init_db`): `user_id INTEGER PRIMARY KEY`,
name columns `TEXT` (nullable), `last_active`/`inactive_until`/`inactive_marked_at`
`TIMESTAMP` (nullable), `messages_since_inactive INTEGER DEFAULT 0`,
`is_bot INTEGER DEFAULT 0` (modelled as `Bool`). -/
structure UserRow where
  user_id : Int
  username : Option String
  first_name : Option String
  last_name : Option String
  last_active : Option Int
  inactive_until : Option Int
  messages_since_inactive : Int
  inactive_marked_at : Option Int
  is_bot : Bool
deriving DecidableEq

/-- The `users` table. `user_id` is `PRIMARY KEY`; theorems that depend on key
uniqueness take it as an explicit hypothesis. -/
abbrev Store := List UserRow

/-- A Telegram user object as supplied by the transport on each event
(`message.from_user`, `new_chat_members[i]`, `left_chat_member`). -/
structure TgUser where
  id : Int
  username : Option String
  first_name : Option String
  last_name : Option String
  is_bot : Bool
deriving DecidableEq

/-- Python truthiness of an optional string: `None` and `""` are falsy. -/
def truthy : Option String → Bool
  | some t => t != ""
  | none => false

/-- The Python `str.split(sep)` for a one-character separator, over the
character list of the string (`"".split(sep) == [""]`). -/
def splitCharAux (sep : Char) : List Char → List String
  | [] => [""]
  | c :: cs =>
    let rest := splitCharAux sep cs
    if c == sep then "" :: rest
    else
      match rest with
      | [] => [String.mk [c]]
      | w :: ws => String.mk (c :: w.data) :: ws

/-- The Python `data.split("|")`. -/
def pySplit (s : String) (sep : Char) : List String :=
  splitCharAux sep s.data

/-- The Unicode decimal-digit ranges `(first, last, value of first)` of the
CPython Unicode database (`unicodedata.decimal`), as consulted by `int()` when
it transforms a string to ASCII. -/
def ndRanges : List (Nat × Nat × Nat) := [
  (48, 57, 0), (1632, 1641, 0), (1776, 1785, 0), (1984, 1993, 0),
  (2406, 2415, 0), (2534, 2543, 0), (2662, 2671, 0), (2790, 2799, 0),
  (2918, 2927, 0), (3046, 3055, 0), (3174, 3183, 0), (3302, 3311, 0),
  (3430, 3439, 0), (3558, 3567, 0), (3664, 3673, 0), (3792, 3801, 0),
  (3872, 3881, 0), (4160, 4169, 0), (4240, 4249, 0), (6112, 6121, 0),
  (6160, 6169, 0), (6470, 6479, 0), (6608, 6617, 0), (6784, 6793, 0),
  (6800, 6809, 0), (6992, 7001, 0), (7088, 7097, 0), (7232, 7241, 0),
  (7248, 7257, 0), (42528, 42537, 0), (43216, 43225, 0), (43264, 43273, 0),
  (43472, 43481, 0), (43504, 43513, 0), (43600, 43609, 0), (44016, 44025, 0),
  (65296, 65305, 0), (66720, 66729, 0), (68912, 68921, 0), (69734, 69743, 0),
  (69872, 69881, 0), (69942, 69951, 0), (70096, 70105, 0), (70384, 70393, 0),
  (70736, 70745, 0), (70864, 70873, 0), (71248, 71257, 0), (71360, 71369, 0),
  (71472, 71481, 0), (71904, 71913, 0), (72016, 72025, 0), (72784, 72793, 0),
  (73040, 73049, 0), (73120, 73129, 0), (92768, 92777, 0), (92864, 92873, 0),
  (93008, 93017, 0), (120782, 120791, 0), (120792, 120801, 0), (120802, 120811, 0),
  (120812, 120821, 0), (120822, 120831, 0), (123200, 123209, 0), (123632, 123641, 0),
  (125264, 125273, 0), (130032, 130041, 0)]

/-- The code points CPython treats as whitespace (`Py_UNICODE_ISSPACE`, the
`str.isspace` set), used by `str.strip()` and by the `int()` transform. -/
def pySpaceCodes : List Nat := [
  9, 10, 11, 12, 13, 28, 29, 30, 31, 32, 133, 160,
  5760, 8192, 8193, 8194, 8195, 8196, 8197, 8198, 8199, 8200, 8201, 8202,
  8232, 8233, 8239, 8287, 12288]

set_option maxHeartbeats 2000000 in
/-- The per-character lowercase mapping of the CPython Unicode database: every
code point whose `str.lower()` image differs from itself, with its image
(`U+0130` maps to two code points).  `U+03A3` (capital sigma) is also here but
is intercepted by the contextual Final_Sigma rule in `pyLowerGo`, exactly as
CPython special-cases it in `lower_ucs4`. -/
def pyLowerTable : List (Nat × List Nat) := [
  (65, [97]), (66, [98]), (67, [99]), (68, [100]),
  (69, [101]), (70, [102]), (71, [103]), (72, [104]),
  (73, [105]), (74, [106]), (75, [107]), (76, [108]),
  (77, [109]), (78, [110]), (79, [111]), (80, [112]),
  (81, [113]), (82, [114]), (83, [115]), (84, [116]),
  (85, [117]), (86, [118]), (87, [119]), (88, [120]),
  (89, [121]), (90, [122]), (192, [224]), (193, [225]),
  (194, [226]), (195, [227]), (196, [228]), (197, [229]),
  (198, [230]), (199, [231]), (200, [232]), (201, [233]),
  (202, [234]), (203, [235]), (204, [236]), (205, [237]),
  (206, [238]), (207, [239]), (208, [240]), (209, [241]),
  (210, [242]), (211, [243]), (212, [244]), (213, [245]),
  (214, [246]), (216, [248]), (217, [249]), (218, [250]),
  (219, [251]), (220, [252]), (221, [253]), (222, [254]),
  (256, [257]), (258, [259]), (260, [261]), (262, [263]),
  (264, [265]), (266, [267]), (268, [269]), (270, [271]),
  (272, [273]), (274, [275]), (276, [277]), (278, [279]),
  (280, [281]), (282, [283]), (284, [285]), (286, [287]),
  (288, [289]), (290, [291]), (292, [293]), (294, [295]),
  (296, [297]), (298, [299]), (300, [301]), (302, [303]),
  (304, [105, 775]), (306, [307]), (308, [309]), (310, [311]),
  (313, [314]), (315, [316]), (317, [318]), (319, [320]),
  (321, [322]), (323, [324]), (325, [326]), (327, [328]),
  (330, [331]), (332, [333]), (334, [335]), (336, [337]),
  (338, [339]), (340, [341]), (342, [343]), (344, [345]),
  (346, [347]), (348, [349]), (350, [351]), (352, [353]),
  (354, [355]), (356, [357]), (358, [359]), (360, [361]),
  (362, [363]), (364, [365]), (366, [367]), (368, [369]),
  (370, [371]), (372, [373]), (374, [375]), (376, [255]),
  (377, [378]), (379, [380]), (381, [382]), (385, [595]),
  (386, [387]), (388, [389]), (390, [596]), (391, [392]),
  (393, [598]), (394, [599]), (395, [396]), (398, [477]),
  (399, [601]), (400, [603]), (401, [402]), (403, [608]),
  (404, [611]), (406, [617]), (407, [616]), (408, [409]),
  (412, [623]), (413, [626]), (415, [629]), (416, [417]),
  (418, [419]), (420, [421]), (422, [640]), (423, [424]),
  (425, [643]), (428, [429]), (430, [648]), (431, [432]),
  (433, [650]), (434, [651]), (435, [436]), (437, [438]),
  (439, [658]), (440, [441]), (444, [445]), (452, [454]),
  (453, [454]), (455, [457]), (456, [457]), (458, [460]),
  (459, [460]), (461, [462]), (463, [464]), (465, [466]),
  (467, [468]), (469, [470]), (471, [472]), (473, [474]),
  (475, [476]), (478, [479]), (480, [481]), (482, [483]),
  (484, [485]), (486, [487]), (488, [489]), (490, [491]),
  (492, [493]), (494, [495]), (497, [499]), (498, [499]),
  (500, [501]), (502, [405]), (503, [447]), (504, [505]),
  (506, [507]), (508, [509]), (510, [511]), (512, [513]),
  (514, [515]), (516, [517]), (518, [519]), (520, [521]),
  (522, [523]), (524, [525]), (526, [527]), (528, [529]),
  (530, [531]), (532, [533]), (534, [535]), (536, [537]),
  (538, [539]), (540, [541]), (542, [543]), (544, [414]),
  (546, [547]), (548, [549]), (550, [551]), (552, [553]),
  (554, [555]), (556, [557]), (558, [559]), (560, [561]),
  (562, [563]), (570, [11365]), (571, [572]), (573, [410]),
  (574, [11366]), (577, [578]), (579, [384]), (580, [649]),
  (581, [652]), (582, [583]), (584, [585]), (586, [587]),
  (588, [589]), (590, [591]), (880, [881]), (882, [883]),
  (886, [887]), (895, [1011]), (902, [940]), (904, [941]),
  (905, [942]), (906, [943]), (908, [972]), (910, [973]),
  (911, [974]), (913, [945]), (914, [946]), (915, [947]),
  (916, [948]), (917, [949]), (918, [950]), (919, [951]),
  (920, [952]), (921, [953]), (922, [954]), (923, [955]),
  (924, [956]), (925, [957]), (926, [958]), (927, [959]),
  (928, [960]), (929, [961]), (931, [963]), (932, [964]),
  (933, [965]), (934, [966]), (935, [967]), (936, [968]),
  (937, [969]), (938, [970]), (939, [971]), (975, [983]),
  (984, [985]), (986, [987]), (988, [989]), (990, [991]),
  (992, [993]), (994, [995]), (996, [997]), (998, [999]),
  (1000, [1001]), (1002, [1003]), (1004, [1005]), (1006, [1007]),
  (1012, [952]), (1015, [1016]), (1017, [1010]), (1018, [1019]),
  (1021, [891]), (1022, [892]), (1023, [893]), (1024, [1104]),
  (1025, [1105]), (1026, [1106]), (1027, [1107]), (1028, [1108]),
  (1029, [1109]), (1030, [1110]), (1031, [1111]), (1032, [1112]),
  (1033, [1113]), (1034, [1114]), (1035, [1115]), (1036, [1116]),
  (1037, [1117]), (1038, [1118]), (1039, [1119]), (1040, [1072]),
  (1041, [1073]), (1042, [1074]), (1043, [1075]), (1044, [1076]),
  (1045, [1077]), (1046, [1078]), (1047, [1079]), (1048, [1080]),
  (1049, [1081]), (1050, [1082]), (1051, [1083]), (1052, [1084]),
  (1053, [1085]), (1054, [1086]), (1055, [1087]), (1056, [1088]),
  (1057, [1089]), (1058, [1090]), (1059, [1091]), (1060, [1092]),
  (1061, [1093]), (1062, [1094]), (1063, [1095]), (1064, [1096]),
  (1065, [1097]), (1066, [1098]), (1067, [1099]), (1068, [1100]),
  (1069, [1101]), (1070, [1102]), (1071, [1103]), (1120, [1121]),
  (1122, [1123]), (1124, [1125]), (1126, [1127]), (1128, [1129]),
  (1130, [1131]), (1132, [1133]), (1134, [1135]), (1136, [1137]),
  (1138, [1139]), (1140, [1141]), (1142, [1143]), (1144, [1145]),
  (1146, [1147]), (1148, [1149]), (1150, [1151]), (1152, [1153]),
  (1162, [1163]), (1164, [1165]), (1166, [1167]), (1168, [1169]),
  (1170, [1171]), (1172, [1173]), (1174, [1175]), (1176, [1177]),
  (1178, [1179]), (1180, [1181]), (1182, [1183]), (1184, [1185]),
  (1186, [1187]), (1188, [1189]), (1190, [1191]), (1192, [1193]),
  (1194, [1195]), (1196, [1197]), (1198, [1199]), (1200, [1201]),
  (1202, [1203]), (1204, [1205]), (1206, [1207]), (1208, [1209]),
  (1210, [1211]), (1212, [1213]), (1214, [1215]), (1216, [1231]),
  (1217, [1218]), (1219, [1220]), (1221, [1222]), (1223, [1224]),
  (1225, [1226]), (1227, [1228]), (1229, [1230]), (1232, [1233]),
  (1234, [1235]), (1236, [1237]), (1238, [1239]), (1240, [1241]),
  (1242, [1243]), (1244, [1245]), (1246, [1247]), (1248, [1249]),
  (1250, [1251]), (1252, [1253]), (1254, [1255]), (1256, [1257]),
  (1258, [1259]), (1260, [1261]), (1262, [1263]), (1264, [1265]),
  (1266, [1267]), (1268, [1269]), (1270, [1271]), (1272, [1273]),
  (1274, [1275]), (1276, [1277]), (1278, [1279]), (1280, [1281]),
  (1282, [1283]), (1284, [1285]), (1286, [1287]), (1288, [1289]),
  (1290, [1291]), (1292, [1293]), (1294, [1295]), (1296, [1297]),
  (1298, [1299]), (1300, [1301]), (1302, [1303]), (1304, [1305]),
  (1306, [1307]), (1308, [1309]), (1310, [1311]), (1312, [1313]),
  (1314, [1315]), (1316, [1317]), (1318, [1319]), (1320, [1321]),
  (1322, [1323]), (1324, [1325]), (1326, [1327]), (1329, [1377]),
  (1330, [1378]), (1331, [1379]), (1332, [1380]), (1333, [1381]),
  (1334, [1382]), (1335, [1383]), (1336, [1384]), (1337, [1385]),
  (1338, [1386]), (1339, [1387]), (1340, [1388]), (1341, [1389]),
  (1342, [1390]), (1343, [1391]), (1344, [1392]), (1345, [1393]),
  (1346, [1394]), (1347, [1395]), (1348, [1396]), (1349, [1397]),
  (1350, [1398]), (1351, [1399]), (1352, [1400]), (1353, [1401]),
  (1354, [1402]), (1355, [1403]), (1356, [1404]), (1357, [1405]),
  (1358, [1406]), (1359, [1407]), (1360, [1408]), (1361, [1409]),
  (1362, [1410]), (1363, [1411]), (1364, [1412]), (1365, [1413]),
  (1366, [1414]), (4256, [11520]), (4257, [11521]), (4258, [11522]),
  (4259, [11523]), (4260, [11524]), (4261, [11525]), (4262, [11526]),
  (4263, [11527]), (4264, [11528]), (4265, [11529]), (4266, [11530]),
  (4267, [11531]), (4268, [11532]), (4269, [11533]), (4270, [11534]),
  (4271, [11535]), (4272, [11536]), (4273, [11537]), (4274, [11538]),
  (4275, [11539]), (4276, [11540]), (4277, [11541]), (4278, [11542]),
  (4279, [11543]), (4280, [11544]), (4281, [11545]), (4282, [11546]),
  (4283, [11547]), (4284, [11548]), (4285, [11549]), (4286, [11550]),
  (4287, [11551]), (4288, [11552]), (4289, [11553]), (4290, [11554]),
  (4291, [11555]), (4292, [11556]), (4293, [11557]), (4295, [11559]),
  (4301, [11565]), (5024, [43888]), (5025, [43889]), (5026, [43890]),
  (5027, [43891]), (5028, [43892]), (5029, [43893]), (5030, [43894]),
  (5031, [43895]), (5032, [43896]), (5033, [43897]), (5034, [43898]),
  (5035, [43899]), (5036, [43900]), (5037, [43901]), (5038, [43902]),
  (5039, [43903]), (5040, [43904]), (5041, [43905]), (5042, [43906]),
  (5043, [43907]), (5044, [43908]), (5045, [43909]), (5046, [43910]),
  (5047, [43911]), (5048, [43912]), (5049, [43913]), (5050, [43914]),
  (5051, [43915]), (5052, [43916]), (5053, [43917]), (5054, [43918]),
  (5055, [43919]), (5056, [43920]), (5057, [43921]), (5058, [43922]),
  (5059, [43923]), (5060, [43924]), (5061, [43925]), (5062, [43926]),
  (5063, [43927]), (5064, [43928]), (5065, [43929]), (5066, [43930]),
  (5067, [43931]), (5068, [43932]), (5069, [43933]), (5070, [43934]),
  (5071, [43935]), (5072, [43936]), (5073, [43937]), (5074, [43938]),
  (5075, [43939]), (5076, [43940]), (5077, [43941]), (5078, [43942]),
  (5079, [43943]), (5080, [43944]), (5081, [43945]), (5082, [43946]),
  (5083, [43947]), (5084, [43948]), (5085, [43949]), (5086, [43950]),
  (5087, [43951]), (5088, [43952]), (5089, [43953]), (5090, [43954]),
  (5091, [43955]), (5092, [43956]), (5093, [43957]), (5094, [43958]),
  (5095, [43959]), (5096, [43960]), (5097, [43961]), (5098, [43962]),
  (5099, [43963]), (5100, [43964]), (5101, [43965]), (5102, [43966]),
  (5103, [43967]), (5104, [5112]), (5105, [5113]), (5106, [5114]),
  (5107, [5115]), (5108, [5116]), (5109, [5117]), (7312, [4304]),
  (7313, [4305]), (7314, [4306]), (7315, [4307]), (7316, [4308]),
  (7317, [4309]), (7318, [4310]), (7319, [4311]), (7320, [4312]),
  (7321, [4313]), (7322, [4314]), (7323, [4315]), (7324, [4316]),
  (7325, [4317]), (7326, [4318]), (7327, [4319]), (7328, [4320]),
  (7329, [4321]), (7330, [4322]), (7331, [4323]), (7332, [4324]),
  (7333, [4325]), (7334, [4326]), (7335, [4327]), (7336, [4328]),
  (7337, [4329]), (7338, [4330]), (7339, [4331]), (7340, [4332]),
  (7341, [4333]), (7342, [4334]), (7343, [4335]), (7344, [4336]),
  (7345, [4337]), (7346, [4338]), (7347, [4339]), (7348, [4340]),
  (7349, [4341]), (7350, [4342]), (7351, [4343]), (7352, [4344]),
  (7353, [4345]), (7354, [4346]), (7357, [4349]), (7358, [4350]),
  (7359, [4351]), (7680, [7681]), (7682, [7683]), (7684, [7685]),
  (7686, [7687]), (7688, [7689]), (7690, [7691]), (7692, [7693]),
  (7694, [7695]), (7696, [7697]), (7698, [7699]), (7700, [7701]),
  (7702, [7703]), (7704, [7705]), (7706, [7707]), (7708, [7709]),
  (7710, [7711]), (7712, [7713]), (7714, [7715]), (7716, [7717]),
  (7718, [7719]), (7720, [7721]), (7722, [7723]), (7724, [7725]),
  (7726, [7727]), (7728, [7729]), (7730, [7731]), (7732, [7733]),
  (7734, [7735]), (7736, [7737]), (7738, [7739]), (7740, [7741]),
  (7742, [7743]), (7744, [7745]), (7746, [7747]), (7748, [7749]),
  (7750, [7751]), (7752, [7753]), (7754, [7755]), (7756, [7757]),
  (7758, [7759]), (7760, [7761]), (7762, [7763]), (7764, [7765]),
  (7766, [7767]), (7768, [7769]), (7770, [7771]), (7772, [7773]),
  (7774, [7775]), (7776, [7777]), (7778, [7779]), (7780, [7781]),
  (7782, [7783]), (7784, [7785]), (7786, [7787]), (7788, [7789]),
  (7790, [7791]), (7792, [7793]), (7794, [7795]), (7796, [7797]),
  (7798, [7799]), (7800, [7801]), (7802, [7803]), (7804, [7805]),
  (7806, [7807]), (7808, [7809]), (7810, [7811]), (7812, [7813]),
  (7814, [7815]), (7816, [7817]), (7818, [7819]), (7820, [7821]),
  (7822, [7823]), (7824, [7825]), (7826, [7827]), (7828, [7829]),
  (7838, [223]), (7840, [7841]), (7842, [7843]), (7844, [7845]),
  (7846, [7847]), (7848, [7849]), (7850, [7851]), (7852, [7853]),
  (7854, [7855]), (7856, [7857]), (7858, [7859]), (7860, [7861]),
  (7862, [7863]), (7864, [7865]), (7866, [7867]), (7868, [7869]),
  (7870, [7871]), (7872, [7873]), (7874, [7875]), (7876, [7877]),
  (7878, [7879]), (7880, [7881]), (7882, [7883]), (7884, [7885]),
  (7886, [7887]), (7888, [7889]), (7890, [7891]), (7892, [7893]),
  (7894, [7895]), (7896, [7897]), (7898, [7899]), (7900, [7901]),
  (7902, [7903]), (7904, [7905]), (7906, [7907]), (7908, [7909]),
  (7910, [7911]), (7912, [7913]), (7914, [7915]), (7916, [7917]),
  (7918, [7919]), (7920, [7921]), (7922, [7923]), (7924, [7925]),
  (7926, [7927]), (7928, [7929]), (7930, [7931]), (7932, [7933]),
  (7934, [7935]), (7944, [7936]), (7945, [7937]), (7946, [7938]),
  (7947, [7939]), (7948, [7940]), (7949, [7941]), (7950, [7942]),
  (7951, [7943]), (7960, [7952]), (7961, [7953]), (7962, [7954]),
  (7963, [7955]), (7964, [7956]), (7965, [7957]), (7976, [7968]),
  (7977, [7969]), (7978, [7970]), (7979, [7971]), (7980, [7972]),
  (7981, [7973]), (7982, [7974]), (7983, [7975]), (7992, [7984]),
  (7993, [7985]), (7994, [7986]), (7995, [7987]), (7996, [7988]),
  (7997, [7989]), (7998, [7990]), (7999, [7991]), (8008, [8000]),
  (8009, [8001]), (8010, [8002]), (8011, [8003]), (8012, [8004]),
  (8013, [8005]), (8025, [8017]), (8027, [8019]), (8029, [8021]),
  (8031, [8023]), (8040, [8032]), (8041, [8033]), (8042, [8034]),
  (8043, [8035]), (8044, [8036]), (8045, [8037]), (8046, [8038]),
  (8047, [8039]), (8072, [8064]), (8073, [8065]), (8074, [8066]),
  (8075, [8067]), (8076, [8068]), (8077, [8069]), (8078, [8070]),
  (8079, [8071]), (8088, [8080]), (8089, [8081]), (8090, [8082]),
  (8091, [8083]), (8092, [8084]), (8093, [8085]), (8094, [8086]),
  (8095, [8087]), (8104, [8096]), (8105, [8097]), (8106, [8098]),
  (8107, [8099]), (8108, [8100]), (8109, [8101]), (8110, [8102]),
  (8111, [8103]), (8120, [8112]), (8121, [8113]), (8122, [8048]),
  (8123, [8049]), (8124, [8115]), (8136, [8050]), (8137, [8051]),
  (8138, [8052]), (8139, [8053]), (8140, [8131]), (8152, [8144]),
  (8153, [8145]), (8154, [8054]), (8155, [8055]), (8168, [8160]),
  (8169, [8161]), (8170, [8058]), (8171, [8059]), (8172, [8165]),
  (8184, [8056]), (8185, [8057]), (8186, [8060]), (8187, [8061]),
  (8188, [8179]), (8486, [969]), (8490, [107]), (8491, [229]),
  (8498, [8526]), (8544, [8560]), (8545, [8561]), (8546, [8562]),
  (8547, [8563]), (8548, [8564]), (8549, [8565]), (8550, [8566]),
  (8551, [8567]), (8552, [8568]), (8553, [8569]), (8554, [8570]),
  (8555, [8571]), (8556, [8572]), (8557, [8573]), (8558, [8574]),
  (8559, [8575]), (8579, [8580]), (9398, [9424]), (9399, [9425]),
  (9400, [9426]), (9401, [9427]), (9402, [9428]), (9403, [9429]),
  (9404, [9430]), (9405, [9431]), (9406, [9432]), (9407, [9433]),
  (9408, [9434]), (9409, [9435]), (9410, [9436]), (9411, [9437]),
  (9412, [9438]), (9413, [9439]), (9414, [9440]), (9415, [9441]),
  (9416, [9442]), (9417, [9443]), (9418, [9444]), (9419, [9445]),
  (9420, [9446]), (9421, [9447]), (9422, [9448]), (9423, [9449]),
  (11264, [11312]), (11265, [11313]), (11266, [11314]), (11267, [11315]),
  (11268, [11316]), (11269, [11317]), (11270, [11318]), (11271, [11319]),
  (11272, [11320]), (11273, [11321]), (11274, [11322]), (11275, [11323]),
  (11276, [11324]), (11277, [11325]), (11278, [11326]), (11279, [11327]),
  (11280, [11328]), (11281, [11329]), (11282, [11330]), (11283, [11331]),
  (11284, [11332]), (11285, [11333]), (11286, [11334]), (11287, [11335]),
  (11288, [11336]), (11289, [11337]), (11290, [11338]), (11291, [11339]),
  (11292, [11340]), (11293, [11341]), (11294, [11342]), (11295, [11343]),
  (11296, [11344]), (11297, [11345]), (11298, [11346]), (11299, [11347]),
  (11300, [11348]), (11301, [11349]), (11302, [11350]), (11303, [11351]),
  (11304, [11352]), (11305, [11353]), (11306, [11354]), (11307, [11355]),
  (11308, [11356]), (11309, [11357]), (11310, [11358]), (11311, [11359]),
  (11360, [11361]), (11362, [619]), (11363, [7549]), (11364, [637]),
  (11367, [11368]), (11369, [11370]), (11371, [11372]), (11373, [593]),
  (11374, [625]), (11375, [592]), (11376, [594]), (11378, [11379]),
  (11381, [11382]), (11390, [575]), (11391, [576]), (11392, [11393]),
  (11394, [11395]), (11396, [11397]), (11398, [11399]), (11400, [11401]),
  (11402, [11403]), (11404, [11405]), (11406, [11407]), (11408, [11409]),
  (11410, [11411]), (11412, [11413]), (11414, [11415]), (11416, [11417]),
  (11418, [11419]), (11420, [11421]), (11422, [11423]), (11424, [11425]),
  (11426, [11427]), (11428, [11429]), (11430, [11431]), (11432, [11433]),
  (11434, [11435]), (11436, [11437]), (11438, [11439]), (11440, [11441]),
  (11442, [11443]), (11444, [11445]), (11446, [11447]), (11448, [11449]),
  (11450, [11451]), (11452, [11453]), (11454, [11455]), (11456, [11457]),
  (11458, [11459]), (11460, [11461]), (11462, [11463]), (11464, [11465]),
  (11466, [11467]), (11468, [11469]), (11470, [11471]), (11472, [11473]),
  (11474, [11475]), (11476, [11477]), (11478, [11479]), (11480, [11481]),
  (11482, [11483]), (11484, [11485]), (11486, [11487]), (11488, [11489]),
  (11490, [11491]), (11499, [11500]), (11501, [11502]), (11506, [11507]),
  (42560, [42561]), (42562, [42563]), (42564, [42565]), (42566, [42567]),
  (42568, [42569]), (42570, [42571]), (42572, [42573]), (42574, [42575]),
  (42576, [42577]), (42578, [42579]), (42580, [42581]), (42582, [42583]),
  (42584, [42585]), (42586, [42587]), (42588, [42589]), (42590, [42591]),
  (42592, [42593]), (42594, [42595]), (42596, [42597]), (42598, [42599]),
  (42600, [42601]), (42602, [42603]), (42604, [42605]), (42624, [42625]),
  (42626, [42627]), (42628, [42629]), (42630, [42631]), (42632, [42633]),
  (42634, [42635]), (42636, [42637]), (42638, [42639]), (42640, [42641]),
  (42642, [42643]), (42644, [42645]), (42646, [42647]), (42648, [42649]),
  (42650, [42651]), (42786, [42787]), (42788, [42789]), (42790, [42791]),
  (42792, [42793]), (42794, [42795]), (42796, [42797]), (42798, [42799]),
  (42802, [42803]), (42804, [42805]), (42806, [42807]), (42808, [42809]),
  (42810, [42811]), (42812, [42813]), (42814, [42815]), (42816, [42817]),
  (42818, [42819]), (42820, [42821]), (42822, [42823]), (42824, [42825]),
  (42826, [42827]), (42828, [42829]), (42830, [42831]), (42832, [42833]),
  (42834, [42835]), (42836, [42837]), (42838, [42839]), (42840, [42841]),
  (42842, [42843]), (42844, [42845]), (42846, [42847]), (42848, [42849]),
  (42850, [42851]), (42852, [42853]), (42854, [42855]), (42856, [42857]),
  (42858, [42859]), (42860, [42861]), (42862, [42863]), (42873, [42874]),
  (42875, [42876]), (42877, [7545]), (42878, [42879]), (42880, [42881]),
  (42882, [42883]), (42884, [42885]), (42886, [42887]), (42891, [42892]),
  (42893, [613]), (42896, [42897]), (42898, [42899]), (42902, [42903]),
  (42904, [42905]), (42906, [42907]), (42908, [42909]), (42910, [42911]),
  (42912, [42913]), (42914, [42915]), (42916, [42917]), (42918, [42919]),
  (42920, [42921]), (42922, [614]), (42923, [604]), (42924, [609]),
  (42925, [620]), (42926, [618]), (42928, [670]), (42929, [647]),
  (42930, [669]), (42931, [43859]), (42932, [42933]), (42934, [42935]),
  (42936, [42937]), (42938, [42939]), (42940, [42941]), (42942, [42943]),
  (42944, [42945]), (42946, [42947]), (42948, [42900]), (42949, [642]),
  (42950, [7566]), (42951, [42952]), (42953, [42954]), (42960, [42961]),
  (42966, [42967]), (42968, [42969]), (42997, [42998]), (65313, [65345]),
  (65314, [65346]), (65315, [65347]), (65316, [65348]), (65317, [65349]),
  (65318, [65350]), (65319, [65351]), (65320, [65352]), (65321, [65353]),
  (65322, [65354]), (65323, [65355]), (65324, [65356]), (65325, [65357]),
  (65326, [65358]), (65327, [65359]), (65328, [65360]), (65329, [65361]),
  (65330, [65362]), (65331, [65363]), (65332, [65364]), (65333, [65365]),
  (65334, [65366]), (65335, [65367]), (65336, [65368]), (65337, [65369]),
  (65338, [65370]), (66560, [66600]), (66561, [66601]), (66562, [66602]),
  (66563, [66603]), (66564, [66604]), (66565, [66605]), (66566, [66606]),
  (66567, [66607]), (66568, [66608]), (66569, [66609]), (66570, [66610]),
  (66571, [66611]), (66572, [66612]), (66573, [66613]), (66574, [66614]),
  (66575, [66615]), (66576, [66616]), (66577, [66617]), (66578, [66618]),
  (66579, [66619]), (66580, [66620]), (66581, [66621]), (66582, [66622]),
  (66583, [66623]), (66584, [66624]), (66585, [66625]), (66586, [66626]),
  (66587, [66627]), (66588, [66628]), (66589, [66629]), (66590, [66630]),
  (66591, [66631]), (66592, [66632]), (66593, [66633]), (66594, [66634]),
  (66595, [66635]), (66596, [66636]), (66597, [66637]), (66598, [66638]),
  (66599, [66639]), (66736, [66776]), (66737, [66777]), (66738, [66778]),
  (66739, [66779]), (66740, [66780]), (66741, [66781]), (66742, [66782]),
  (66743, [66783]), (66744, [66784]), (66745, [66785]), (66746, [66786]),
  (66747, [66787]), (66748, [66788]), (66749, [66789]), (66750, [66790]),
  (66751, [66791]), (66752, [66792]), (66753, [66793]), (66754, [66794]),
  (66755, [66795]), (66756, [66796]), (66757, [66797]), (66758, [66798]),
  (66759, [66799]), (66760, [66800]), (66761, [66801]), (66762, [66802]),
  (66763, [66803]), (66764, [66804]), (66765, [66805]), (66766, [66806]),
  (66767, [66807]), (66768, [66808]), (66769, [66809]), (66770, [66810]),
  (66771, [66811]), (66928, [66967]), (66929, [66968]), (66930, [66969]),
  (66931, [66970]), (66932, [66971]), (66933, [66972]), (66934, [66973]),
  (66935, [66974]), (66936, [66975]), (66937, [66976]), (66938, [66977]),
  (66940, [66979]), (66941, [66980]), (66942, [66981]), (66943, [66982]),
  (66944, [66983]), (66945, [66984]), (66946, [66985]), (66947, [66986]),
  (66948, [66987]), (66949, [66988]), (66950, [66989]), (66951, [66990]),
  (66952, [66991]), (66953, [66992]), (66954, [66993]), (66956, [66995]),
  (66957, [66996]), (66958, [66997]), (66959, [66998]), (66960, [66999]),
  (66961, [67000]), (66962, [67001]), (66964, [67003]), (66965, [67004]),
  (68736, [68800]), (68737, [68801]), (68738, [68802]), (68739, [68803]),
  (68740, [68804]), (68741, [68805]), (68742, [68806]), (68743, [68807]),
  (68744, [68808]), (68745, [68809]), (68746, [68810]), (68747, [68811]),
  (68748, [68812]), (68749, [68813]), (68750, [68814]), (68751, [68815]),
  (68752, [68816]), (68753, [68817]), (68754, [68818]), (68755, [68819]),
  (68756, [68820]), (68757, [68821]), (68758, [68822]), (68759, [68823]),
  (68760, [68824]), (68761, [68825]), (68762, [68826]), (68763, [68827]),
  (68764, [68828]), (68765, [68829]), (68766, [68830]), (68767, [68831]),
  (68768, [68832]), (68769, [68833]), (68770, [68834]), (68771, [68835]),
  (68772, [68836]), (68773, [68837]), (68774, [68838]), (68775, [68839]),
  (68776, [68840]), (68777, [68841]), (68778, [68842]), (68779, [68843]),
  (68780, [68844]), (68781, [68845]), (68782, [68846]), (68783, [68847]),
  (68784, [68848]), (68785, [68849]), (68786, [68850]), (71840, [71872]),
  (71841, [71873]), (71842, [71874]), (71843, [71875]), (71844, [71876]),
  (71845, [71877]), (71846, [71878]), (71847, [71879]), (71848, [71880]),
  (71849, [71881]), (71850, [71882]), (71851, [71883]), (71852, [71884]),
  (71853, [71885]), (71854, [71886]), (71855, [71887]), (71856, [71888]),
  (71857, [71889]), (71858, [71890]), (71859, [71891]), (71860, [71892]),
  (71861, [71893]), (71862, [71894]), (71863, [71895]), (71864, [71896]),
  (71865, [71897]), (71866, [71898]), (71867, [71899]), (71868, [71900]),
  (71869, [71901]), (71870, [71902]), (71871, [71903]), (93760, [93792]),
  (93761, [93793]), (93762, [93794]), (93763, [93795]), (93764, [93796]),
  (93765, [93797]), (93766, [93798]), (93767, [93799]), (93768, [93800]),
  (93769, [93801]), (93770, [93802]), (93771, [93803]), (93772, [93804]),
  (93773, [93805]), (93774, [93806]), (93775, [93807]), (93776, [93808]),
  (93777, [93809]), (93778, [93810]), (93779, [93811]), (93780, [93812]),
  (93781, [93813]), (93782, [93814]), (93783, [93815]), (93784, [93816]),
  (93785, [93817]), (93786, [93818]), (93787, [93819]), (93788, [93820]),
  (93789, [93821]), (93790, [93822]), (93791, [93823]), (125184, [125218]),
  (125185, [125219]), (125186, [125220]), (125187, [125221]), (125188, [125222]),
  (125189, [125223]), (125190, [125224]), (125191, [125225]), (125192, [125226]),
  (125193, [125227]), (125194, [125228]), (125195, [125229]), (125196, [125230]),
  (125197, [125231]), (125198, [125232]), (125199, [125233]), (125200, [125234]),
  (125201, [125235]), (125202, [125236]), (125203, [125237]), (125204, [125238]),
  (125205, [125239]), (125206, [125240]), (125207, [125241]), (125208, [125242]),
  (125209, [125243]), (125210, [125244]), (125211, [125245]), (125212, [125246]),
  (125213, [125247]), (125214, [125248]), (125215, [125249]), (125216, [125250]),
  (125217, [125251])]

/-- The code-point ranges of the Cased property as used by the CPython Final_Sigma rule (`_PyUnicode_IsCased`). -/
def casedRanges : List (Nat × Nat) := [
  (65, 90), (97, 122), (170, 170), (181, 181), (186, 186), (192, 214),
  (216, 246), (248, 442), (444, 447), (452, 659), (661, 687), (880, 883),
  (886, 887), (891, 893), (895, 895), (902, 902), (904, 906), (908, 908),
  (910, 929), (931, 1013), (1015, 1153), (1162, 1327), (1329, 1366), (1376, 1416),
  (4256, 4293), (4295, 4295), (4301, 4301), (4304, 4346), (4349, 4351), (5024, 5109),
  (5112, 5117), (7296, 7304), (7312, 7354), (7357, 7359), (7424, 7467), (7531, 7543),
  (7545, 7578), (7680, 7957), (7960, 7965), (7968, 8005), (8008, 8013), (8016, 8023),
  (8025, 8025), (8027, 8027), (8029, 8029), (8031, 8061), (8064, 8116), (8118, 8124),
  (8126, 8126), (8130, 8132), (8134, 8140), (8144, 8147), (8150, 8155), (8160, 8172),
  (8178, 8180), (8182, 8188), (8450, 8450), (8455, 8455), (8458, 8467), (8469, 8469),
  (8473, 8477), (8484, 8484), (8486, 8486), (8488, 8488), (8490, 8493), (8495, 8500),
  (8505, 8505), (8508, 8511), (8517, 8521), (8526, 8526), (8544, 8575), (8579, 8580),
  (9398, 9449), (11264, 11387), (11390, 11492), (11499, 11502), (11506, 11507), (11520, 11557),
  (11559, 11559), (11565, 11565), (42560, 42605), (42624, 42651), (42786, 42863), (42865, 42887),
  (42891, 42894), (42896, 42954), (42960, 42961), (42963, 42963), (42965, 42969), (42997, 42998),
  (43002, 43002), (43824, 43866), (43872, 43880), (43888, 43967), (64256, 64262), (64275, 64279),
  (65313, 65338), (65345, 65370), (66560, 66639), (66736, 66771), (66776, 66811), (66928, 66938),
  (66940, 66954), (66956, 66962), (66964, 66965), (66967, 66977), (66979, 66993), (66995, 67001),
  (67003, 67004), (68736, 68786), (68800, 68850), (71840, 71903), (93760, 93823), (119808, 119892),
  (119894, 119964), (119966, 119967), (119970, 119970), (119973, 119974), (119977, 119980), (119982, 119993),
  (119995, 119995), (119997, 120003), (120005, 120069), (120071, 120074), (120077, 120084), (120086, 120092),
  (120094, 120121), (120123, 120126), (120128, 120132), (120134, 120134), (120138, 120144), (120146, 120485),
  (120488, 120512), (120514, 120538), (120540, 120570), (120572, 120596), (120598, 120628), (120630, 120654),
  (120656, 120686), (120688, 120712), (120714, 120744), (120746, 120770), (120772, 120779), (122624, 122633),
  (122635, 122654), (125184, 125251), (127280, 127305), (127312, 127337), (127344, 127369)]

/-- The code-point ranges of the Case_Ignorable property as used by the CPython Final_Sigma rule (`_PyUnicode_IsCaseIgnorable`). -/
def caseIgnorableRanges : List (Nat × Nat) := [
  (39, 39), (46, 46), (58, 58), (94, 94), (96, 96), (168, 168),
  (173, 173), (175, 175), (180, 180), (183, 184), (688, 879), (884, 885),
  (890, 890), (900, 901), (903, 903), (1155, 1161), (1369, 1369), (1375, 1375),
  (1425, 1469), (1471, 1471), (1473, 1474), (1476, 1477), (1479, 1479), (1524, 1524),
  (1536, 1541), (1552, 1562), (1564, 1564), (1600, 1600), (1611, 1631), (1648, 1648),
  (1750, 1757), (1759, 1768), (1770, 1773), (1807, 1807), (1809, 1809), (1840, 1866),
  (1958, 1968), (2027, 2037), (2042, 2042), (2045, 2045), (2070, 2093), (2137, 2139),
  (2184, 2184), (2192, 2193), (2200, 2207), (2249, 2306), (2362, 2362), (2364, 2364),
  (2369, 2376), (2381, 2381), (2385, 2391), (2402, 2403), (2417, 2417), (2433, 2433),
  (2492, 2492), (2497, 2500), (2509, 2509), (2530, 2531), (2558, 2558), (2561, 2562),
  (2620, 2620), (2625, 2626), (2631, 2632), (2635, 2637), (2641, 2641), (2672, 2673),
  (2677, 2677), (2689, 2690), (2748, 2748), (2753, 2757), (2759, 2760), (2765, 2765),
  (2786, 2787), (2810, 2815), (2817, 2817), (2876, 2876), (2879, 2879), (2881, 2884),
  (2893, 2893), (2901, 2902), (2914, 2915), (2946, 2946), (3008, 3008), (3021, 3021),
  (3072, 3072), (3076, 3076), (3132, 3132), (3134, 3136), (3142, 3144), (3146, 3149),
  (3157, 3158), (3170, 3171), (3201, 3201), (3260, 3260), (3263, 3263), (3270, 3270),
  (3276, 3277), (3298, 3299), (3328, 3329), (3387, 3388), (3393, 3396), (3405, 3405),
  (3426, 3427), (3457, 3457), (3530, 3530), (3538, 3540), (3542, 3542), (3633, 3633),
  (3636, 3642), (3654, 3662), (3761, 3761), (3764, 3772), (3782, 3782), (3784, 3789),
  (3864, 3865), (3893, 3893), (3895, 3895), (3897, 3897), (3953, 3966), (3968, 3972),
  (3974, 3975), (3981, 3991), (3993, 4028), (4038, 4038), (4141, 4144), (4146, 4151),
  (4153, 4154), (4157, 4158), (4184, 4185), (4190, 4192), (4209, 4212), (4226, 4226),
  (4229, 4230), (4237, 4237), (4253, 4253), (4348, 4348), (4957, 4959), (5906, 5908),
  (5938, 5939), (5970, 5971), (6002, 6003), (6068, 6069), (6071, 6077), (6086, 6086),
  (6089, 6099), (6103, 6103), (6109, 6109), (6155, 6159), (6211, 6211), (6277, 6278),
  (6313, 6313), (6432, 6434), (6439, 6440), (6450, 6450), (6457, 6459), (6679, 6680),
  (6683, 6683), (6742, 6742), (6744, 6750), (6752, 6752), (6754, 6754), (6757, 6764),
  (6771, 6780), (6783, 6783), (6823, 6823), (6832, 6862), (6912, 6915), (6964, 6964),
  (6966, 6970), (6972, 6972), (6978, 6978), (7019, 7027), (7040, 7041), (7074, 7077),
  (7080, 7081), (7083, 7085), (7142, 7142), (7144, 7145), (7149, 7149), (7151, 7153),
  (7212, 7219), (7222, 7223), (7288, 7293), (7376, 7378), (7380, 7392), (7394, 7400),
  (7405, 7405), (7412, 7412), (7416, 7417), (7468, 7530), (7544, 7544), (7579, 7679),
  (8125, 8125), (8127, 8129), (8141, 8143), (8157, 8159), (8173, 8175), (8189, 8190),
  (8203, 8207), (8216, 8217), (8228, 8228), (8231, 8231), (8234, 8238), (8288, 8292),
  (8294, 8303), (8305, 8305), (8319, 8319), (8336, 8348), (8400, 8432), (11388, 11389),
  (11503, 11505), (11631, 11631), (11647, 11647), (11744, 11775), (11823, 11823), (12293, 12293),
  (12330, 12333), (12337, 12341), (12347, 12347), (12441, 12446), (12540, 12542), (40981, 40981),
  (42232, 42237), (42508, 42508), (42607, 42610), (42612, 42621), (42623, 42623), (42652, 42655),
  (42736, 42737), (42752, 42785), (42864, 42864), (42888, 42890), (42994, 42996), (43000, 43001),
  (43010, 43010), (43014, 43014), (43019, 43019), (43045, 43046), (43052, 43052), (43204, 43205),
  (43232, 43249), (43263, 43263), (43302, 43309), (43335, 43345), (43392, 43394), (43443, 43443),
  (43446, 43449), (43452, 43453), (43471, 43471), (43493, 43494), (43561, 43566), (43569, 43570),
  (43573, 43574), (43587, 43587), (43596, 43596), (43632, 43632), (43644, 43644), (43696, 43696),
  (43698, 43700), (43703, 43704), (43710, 43711), (43713, 43713), (43741, 43741), (43756, 43757),
  (43763, 43764), (43766, 43766), (43867, 43871), (43881, 43883), (44005, 44005), (44008, 44008),
  (44013, 44013), (64286, 64286), (64434, 64450), (65024, 65039), (65043, 65043), (65056, 65071),
  (65106, 65106), (65109, 65109), (65279, 65279), (65287, 65287), (65294, 65294), (65306, 65306),
  (65342, 65342), (65344, 65344), (65392, 65392), (65438, 65439), (65507, 65507), (65529, 65531),
  (66045, 66045), (66272, 66272), (66422, 66426), (67456, 67461), (67463, 67504), (67506, 67514),
  (68097, 68099), (68101, 68102), (68108, 68111), (68152, 68154), (68159, 68159), (68325, 68326),
  (68900, 68903), (69291, 69292), (69446, 69456), (69506, 69509), (69633, 69633), (69688, 69702),
  (69744, 69744), (69747, 69748), (69759, 69761), (69811, 69814), (69817, 69818), (69821, 69821),
  (69826, 69826), (69837, 69837), (69888, 69890), (69927, 69931), (69933, 69940), (70003, 70003),
  (70016, 70017), (70070, 70078), (70089, 70092), (70095, 70095), (70191, 70193), (70196, 70196),
  (70198, 70199), (70206, 70206), (70367, 70367), (70371, 70378), (70400, 70401), (70459, 70460),
  (70464, 70464), (70502, 70508), (70512, 70516), (70712, 70719), (70722, 70724), (70726, 70726),
  (70750, 70750), (70835, 70840), (70842, 70842), (70847, 70848), (70850, 70851), (71090, 71093),
  (71100, 71101), (71103, 71104), (71132, 71133), (71219, 71226), (71229, 71229), (71231, 71232),
  (71339, 71339), (71341, 71341), (71344, 71349), (71351, 71351), (71453, 71455), (71458, 71461),
  (71463, 71467), (71727, 71735), (71737, 71738), (71995, 71996), (71998, 71998), (72003, 72003),
  (72148, 72151), (72154, 72155), (72160, 72160), (72193, 72202), (72243, 72248), (72251, 72254),
  (72263, 72263), (72273, 72278), (72281, 72283), (72330, 72342), (72344, 72345), (72752, 72758),
  (72760, 72765), (72767, 72767), (72850, 72871), (72874, 72880), (72882, 72883), (72885, 72886),
  (73009, 73014), (73018, 73018), (73020, 73021), (73023, 73029), (73031, 73031), (73104, 73105),
  (73109, 73109), (73111, 73111), (73459, 73460), (78896, 78904), (92912, 92916), (92976, 92982),
  (92992, 92995), (94031, 94031), (94095, 94111), (94176, 94177), (94179, 94180), (110576, 110579),
  (110581, 110587), (110589, 110590), (113821, 113822), (113824, 113827), (118528, 118573), (118576, 118598),
  (119143, 119145), (119155, 119170), (119173, 119179), (119210, 119213), (119362, 119364), (121344, 121398),
  (121403, 121452), (121461, 121461), (121476, 121476), (121499, 121503), (121505, 121519), (122880, 122886),
  (122888, 122904), (122907, 122913), (122915, 122916), (122918, 122922), (123184, 123197), (123566, 123566),
  (123628, 123631), (125136, 125142), (125252, 125259), (127995, 127999), (917505, 917505), (917536, 917631),
  (917760, 917999)]

/-- Membership of a code point in a list of inclusive ranges. -/
def inRanges (rs : List (Nat × Nat)) (n : Nat) : Bool :=
  rs.any (fun p => p.1 ≤ n && n ≤ p.2)

/-- The Unicode decimal value of a character, per the CPython table. -/
def pyDigitVal (c : Char) : Option Nat :=
  (ndRanges.find? (fun t => t.1 ≤ c.toNat && c.toNat ≤ t.2.1)).map
    (fun t => t.2.2 + (c.toNat - t.1))

/-- CPython whitespace (`str.isspace`). -/
def pyIsSpace (c : Char) : Bool :=
  pySpaceCodes.contains c.toNat

/-- The C-level whitespace set the `int()` parser strips after the transform
(`Py_ISSPACE`): tab, LF, VT, FF, CR, space.  Code points 28-31 are Python
whitespace but, being ASCII, pass the transform unchanged and are then not
stripped — `int("\x1c5")` raises, which this model reproduces. -/
def cSpaceCodes : List Nat := [9, 10, 11, 12, 13, 32]

/-- The per-character transform `int()` applies to a string
(`_PyUnicode_TransformDecimalAndSpaceToASCII`): code points below 127 pass
unchanged, other Unicode whitespace becomes a space, other Unicode decimal
digits become the ASCII digit of their value, and anything else makes the
conversion fail. -/
def pyIntTransform : List Char → Option (List Char)
  | [] => some []
  | c :: rest =>
    let t : Option Char :=
      if c.toNat < 127 then some c
      else if pyIsSpace c then some ' '
      else match pyDigitVal c with
        | some d => some (Char.ofNat (48 + d))
        | none => none
    match t, pyIntTransform rest with
    | some c2, some l => some (c2 :: l)
    | _, _ => none

/-- Continuation of the `int()` digit grammar after the first digit: digits,
with single underscores allowed only between digits. -/
def usDigitsCore : List Char → Bool
  | [] => true
  | '_' :: c :: rest => c.isDigit && usDigitsCore rest
  | ['_'] => false
  | c :: rest => c.isDigit && usDigitsCore rest

/-- The `int()` digit grammar: at least one digit, single underscores only
between digits (`"1_0"` parses, `"_1"`, `"1_"`, `"1__0"` raise). -/
def pyDigitsOk : List Char → Bool
  | [] => false
  | c :: rest => c.isDigit && usDigitsCore rest

/-- Value of a parsed digit-and-underscore sequence. -/
def digitsValue (l : List Char) : Nat :=
  (l.filter (fun c => c != '_')).foldl (fun n c => n * 10 + (c.toNat - 48)) 0

/-- The Python `int(s)` conversion for base 10, modelled after CPython:
transform Unicode digits and spaces to ASCII (failing on other non-ASCII),
strip C whitespace from both ends, then an optional sign and digits with
underscore separators.  Validated character-for-character against the
behaviour of CPython 3.11 `int()` on randomized and targeted inputs. -/
def pyToInt (s : String) : Option Int :=
  match pyIntTransform s.data with
  | none => none
  | some cs0 =>
    let cs := (((cs0.dropWhile (fun c => cSpaceCodes.contains c.toNat)).reverse.dropWhile
        (fun c => cSpaceCodes.contains c.toNat)).reverse)
    match cs with
    | '-' :: rest => if pyDigitsOk rest then some (-(digitsValue rest : Int)) else none
    | '+' :: rest => if pyDigitsOk rest then some ((digitsValue rest : Int)) else none
    | rest => if pyDigitsOk rest then some ((digitsValue rest : Int)) else none

/-- The Python `str.strip()` operation: drop Unicode whitespace
(`Py_UNICODE_ISSPACE`) from both ends. -/
def pyStrip (s : String) : String :=
  String.mk (((s.data.dropWhile pyIsSpace).reverse.dropWhile pyIsSpace).reverse)

/-- Whether a character has the Cased property (CPython `_PyUnicode_IsCased`). -/
def isCased (c : Char) : Bool :=
  inRanges casedRanges c.toNat

/-- Whether a character has the Case_Ignorable property
(CPython `_PyUnicode_IsCaseIgnorable`). -/
def isCaseIgnorable (c : Char) : Bool :=
  inRanges caseIgnorableRanges c.toNat

/-- Per-character lowercase via the CPython table. -/
def pyLowerChar (c : Char) : List Char :=
  match pyLowerTable.find? (fun t => t.1 == c.toNat) with
  | some t => t.2.map Char.ofNat
  | none => [c]

/-- The Final_Sigma context condition of `str.lower`, as CPython implements it
in `handle_capital_sigma`: capital sigma lowers to the final form exactly when
it is preceded (skipping case-ignorable characters) by a cased character and
not followed (skipping case-ignorable characters) by one.  `before` holds the
preceding original characters in reverse order. -/
def sigmaIsFinal (before after : List Char) : Bool :=
  (match before.dropWhile isCaseIgnorable with
   | b :: _ => isCased b
   | [] => false) &&
  !(match after.dropWhile isCaseIgnorable with
    | a :: _ => isCased a
    | [] => false)

/-- One pass of `str.lower` over the characters, carrying the already-seen
original characters in reverse for the sigma context. -/
def pyLowerGo : List Char → List Char → List Char
  | _, [] => []
  | prev, c :: rest =>
    (if c.toNat == 0x3A3 then
      (if sigmaIsFinal prev rest then [Char.ofNat 0x3C2] else [Char.ofNat 0x3C3])
    else pyLowerChar c) ++ pyLowerGo (c :: prev) rest

/-- The Python `str.lower()` operation: full Unicode per-character lowercasing
plus the contextual Final_Sigma rule, with all tables taken from the CPython
Unicode database.  Validated character-for-character against the behaviour of
CPython 3.11 `str.lower` on randomized and targeted inputs (Cyrillic, Greek
sigma contexts, combining marks, `U+0130`, titlecase digraphs). -/
def pyLower (s : String) : String :=
  String.mk (pyLowerGo [] s.data)

set_option maxRecDepth 20000 in
/-- Sample agreement of `pyToInt` with CPython `int()`: whitespace stripping
(Unicode and C, but not `U+001C`), underscore separators, Unicode digits, and
the malformed cases. -/
theorem pyToInt_cpython_samples :
    pyToInt " 5" = some 5 ∧ pyToInt "\t5\n" = some 5 ∧ pyToInt "\x1c5" = none ∧
    pyToInt "\xa05" = some 5 ∧ pyToInt "　5" = some 5 ∧ pyToInt " +5" = some 5 ∧
    pyToInt "+ 5" = none ∧ pyToInt "1_0" = some 10 ∧ pyToInt "_1" = none ∧
    pyToInt "1_" = none ∧ pyToInt "1__0" = none ∧ pyToInt "١٢" = some 12 ∧
    pyToInt "５" = some 5 ∧ pyToInt "¹" = none ∧ pyToInt "5x" = none ∧
    pyToInt "  -1_2_3  " = some (-123) ∧ pyToInt "" = none := by
  decide

set_option maxRecDepth 20000 in
/-- Sample agreement of `pyLower` with CPython `str.lower`: Cyrillic, the
Final_Sigma contexts, `U+0130` and a titlecase digraph. -/
theorem pyLower_cpython_samples :
    pyLower "Яна" = "яна" ∧ pyLower "БРОНИК" = "броник" ∧
    pyLower "ΝΙΚΟΣ" = "νικος" ∧ pyLower "Σ" = "σ" ∧ pyLower "ΑΣΒ" = "ασβ" ∧
    pyLower "İ" = "i̇" ∧ pyLower "ǅ" = "ǆ" ∧ pyLower "Α«Σ" = "α«σ" := by
  decide

/-- SQL `COALESCE(?, col)`: the new value if non-NULL, else the stored one. -/
def coalesce (newv old : Option String) : Option String :=
  match newv with
  | some v => some v
  | none => old

/-- `upsert_user` (src/main.py:74-97): bots are skipped entirely; an existing
row gets its name columns `COALESCE`d (and `is_bot = COALESCE(0, is_bot) = 0`);
a fresh row is inserted with `last_active = now` and defaults elsewhere. -/
def upsert_user (s : Store) (uid : Int) (username first_name last_name : Option String)
    (is_bot : Bool) (now : Int) : Store :=
  if is_bot then s
  else if s.any (fun r => r.user_id == uid) then
    s.map (fun r =>
      if r.user_id == uid then
        { r with
          username := coalesce username r.username
          first_name := coalesce first_name r.first_name
          last_name := coalesce last_name r.last_name
          is_bot := false }
      else r)
  else
    s ++ [{ user_id := uid, username := username, first_name := first_name,
            last_name := last_name, last_active := some now, inactive_until := none,
            messages_since_inactive := 0, inactive_marked_at := none, is_bot := false }]

/-- `mark_active` (src/main.py:99-111): sets `last_active = now` and resets
`messages_since_inactive` to 0 unless `inactive_until` is non-NULL and `> now`. -/
def mark_active (s : Store) (uid : Int) (now : Int) : Store :=
  s.map (fun r =>
    if r.user_id == uid && !r.is_bot then
      { r with
        last_active := some now
        messages_since_inactive :=
          match r.inactive_until with
          | some u => if now < u then r.messages_since_inactive else 0
          | none => 0 }
    else r)

/-- `get_user` (src/main.py:113-119): `SELECT ... WHERE user_id = ?` + `fetchone`
(note: no `is_bot` filter here). -/
def get_user (s : Store) (uid : Int) : Option UserRow :=
  s.find? (fun r => r.user_id == uid)

/-- `set_inactive` (src/main.py:121-130). -/
def set_inactive (s : Store) (uid : Int) (now : Int) : Store :=
  s.map (fun r =>
    if r.user_id == uid && !r.is_bot then
      { r with inactive_until := some (now + INACTIVE_PERIOD),
               inactive_marked_at := some now, messages_since_inactive := 0 }
    else r)

/-- `clear_inactive` (src/main.py:132-139). -/
def clear_inactive (s : Store) (uid : Int) : Store :=
  s.map (fun r =>
    if r.user_id == uid && !r.is_bot then
      { r with inactive_until := none, messages_since_inactive := 0,
               inactive_marked_at := none }
    else r)

/-- `reduce_inactive_by_minutes` (src/main.py:141-163): reads the row of the user
(`WHERE user_id = ? AND is_bot = 0`); if `inactive_until` is NULL this is a
no-op; otherwise with `new_until = inactive_until - minutes` and the incremented
message counter, either clears the inactivity window (counter reached
`MESSAGES_TO_CLEAR_INACTIVE`, or `new_until <= now`) or persists the shortened
window and the incremented counter. -/
def reduce_inactive_by_minutes (s : Store) (uid : Int) (minutes : Int) (now : Int) : Store :=
  match s.find? (fun r => r.user_id == uid && !r.is_bot) with
  | none => s
  | some row =>
    match row.inactive_until with
    | none => s
    | some u =>
      let new_until := u - minutes * 60
      let msgs := row.messages_since_inactive + 1
      if MESSAGES_TO_CLEAR_INACTIVE ≤ msgs ∨ new_until ≤ now then
        s.map (fun r =>
          if r.user_id == uid && !r.is_bot then
            { r with inactive_until := none, messages_since_inactive := 0,
                     inactive_marked_at := none }
          else r)
      else
        s.map (fun r =>
          if r.user_id == uid && !r.is_bot then
            { r with inactive_until := some new_until, messages_since_inactive := msgs }
          else r)

/-- `all_tracked_users` (src/main.py:165-172): `SELECT ... WHERE is_bot = 0`. -/
def all_tracked_users (s : Store) : List UserRow :=
  s.filter (fun r => !r.is_bot)

/-- `scan_and_mark_inactive_once` (src/main.py:196-212): over non-bot rows,
skip those with NULL `last_active` or a non-NULL `inactive_until`; mark the
rest inactive when silent for at least `INACTIVE_THRESHOLD`.  Rows are keyed by
the `PRIMARY KEY` `user_id`, so the per-row `UPDATE`s amount to a map. -/
def scan_and_mark_inactive_once (s : Store) (now : Int) : Store :=
  s.map (fun r =>
    if r.is_bot then r
    else
      match r.last_active with
      | none => r
      | some la =>
        match r.inactive_until with
        | some _ => r
        | none =>
          if INACTIVE_THRESHOLD ≤ now - la then
            { r with inactive_until := some (now + INACTIVE_PERIOD),
                     inactive_marked_at := some now, messages_since_inactive := 0 }
          else r)

/-- Display name from `format_user_line` (src/main.py:215-221): `@username` if
truthy, else `first_name [+ " " + last_name]` stripped, else `user_<id>`. -/
def display_name (r : UserRow) : String :=
  if truthy r.username then "@" ++ r.username.getD ""
  else
    let d0 := r.first_name.getD "" ++ (if truthy r.last_name then " " ++ r.last_name.getD "" else "")
    let d1 := pyStrip d0
    if d1 != "" then d1 else "user_" ++ toString r.user_id

/-- Status from `format_user_line` (src/main.py:222-232): `Active` unless
`inactive_until` is non-NULL and strictly in the future, in which case the
remaining time is shown as floor-truncated days/hours/minutes
(`delta.days`, `divmod(delta.seconds, 3600)`, `remainder // 60`). -/
def status_of (r : UserRow) (now : Int) : String :=
  match r.inactive_until with
  | none => "Active"
  | some u =>
    if now < u then
      let delta := u - now
      let days := delta / 86400
      let hours := delta % 86400 / 3600
      let minutes := delta % 86400 % 3600 / 60
      "Inactive " ++ toString days ++ "d " ++ toString hours ++ "h " ++ toString minutes ++ "m"
    else "Active"

/-- `format_user_line` (src/main.py:215-233): `"<display> | <status>"`. -/
def format_user_line (r : UserRow) (now : Int) : String :=
  display_name r ++ " | " ++ status_of r now

/-- `compute_counts` (src/main.py:235-249): one pass over the snapshot counting
each row as inactive iff `inactive_until` is non-NULL and `> now`, else active. -/
def compute_counts : List UserRow → Int → Nat × Nat × Nat
  | [], _ => (0, 0, 0)
  | r :: rest, now =>
    let acc := compute_counts rest now
    match r.inactive_until with
    | some u =>
      if now < u then (acc.1, acc.2.1 + 1, acc.2.2 + 1)
      else (acc.1 + 1, acc.2.1, acc.2.2 + 1)
    | none => (acc.1 + 1, acc.2.1, acc.2.2 + 1)

/-- The per-row `is_inactive` computation of `filter_and_sort_users`
(src/main.py:255-258): effectively inactive iff `inactive_until` non-NULL and
strictly after `now`. -/
def is_inactive (r : UserRow) (now : Int) : Bool :=
  match r.inactive_until with
  | some u => decide (now < u)
  | none => false

/-- The two `continue` filters of `filter_and_sort_users` (src/main.py:259-262). -/
def keeps (filter_mode : String) (r : UserRow) (now : Int) : Bool :=
  !(filter_mode == "active" && is_inactive r now) &&
    !(filter_mode == "inactive" && !is_inactive r now)

/-- The sort key for `sort_mode="name"` (src/main.py:263):
`(username or (first_name or "")).lower() if (username or first_name) else str(user_id)`. -/
def name_key (r : UserRow) : String :=
  if truthy r.username then pyLower (r.username.getD "")
  else if truthy r.first_name then pyLower (r.first_name.getD "")
  else toString r.user_id

set_option maxRecDepth 20000 in
/-- The name key is the full-Unicode lowercased username: on a mixed-case
Cyrillic username the key matches CPython `str.lower`. -/
theorem name_key_cyrillic_sample :
    name_key (UserRow.mk 1 (some "Яна") none none none none 0 none false) = "яна" := by
  decide

/-- The sort key for `sort_mode="last"` (src/main.py:264): `last_active`, with
NULL treated as the epoch (`datetime.fromtimestamp(0)`). -/
def last_key (r : UserRow) : Int :=
  r.last_active.getD 0

/-- `filter_and_sort_users` (src/main.py:251-270): filter by the two `continue`s,
then The Python stable `list.sort` — ascending by `name_key` for `"name"`,
descending by `last_key` (`reverse=True`) otherwise.  Stable sorting is
modelled by `List.insertionSort`. -/
def filter_and_sort_users (rows : List UserRow) (filter_mode sort_mode : String)
    (now : Int) : List UserRow :=
  let processed := rows.filter (fun r => keeps filter_mode r now)
  if sort_mode == "name" then
    processed.insertionSort (fun a b => name_key a ≤ name_key b)
  else
    processed.insertionSort (fun a b => last_key b ≤ last_key a)

/-- The `total_pages` expression of `build_attendance_text` (src/main.py:273)
and of the two handlers (src/main.py:322,346):
`(count + page_size - 1)//page_size if count else 1`. -/
def build_total_pages (count : Nat) (page_size : Nat) : Nat :=
  if count != 0 then (count + page_size - 1) / page_size else 1

/-- `build_attendance_text` (src/main.py:272-281).  Note that the `Page X / Y`
line recomputes `total_pages` from the aggregate `total_count` argument, not
from the filtered list. -/
def build_attendance_text (paged_rows : List UserRow)
    (active_count inactive_count total_count : Nat) (page : Nat) (page_size : Nat)
    (filter_mode sort_mode : String) (now : Int) : String :=
  let total_pages := build_total_pages total_count page_size
  let sort_label := if sort_mode == "name" then "name" else "last active"
  let header :=
    "<b>Attendance</b> — <i>" ++ filter_mode ++ "</i> — Sorted by <i>" ++ sort_label ++
    "</i>\n" ++
    "Active: <b>" ++ toString active_count ++ "</b>  |  Inactive: <b>" ++
    toString inactive_count ++ "</b>  |  Total: <b>" ++ toString total_count ++ "</b>\n" ++
    "Page " ++ toString (page + 1) ++ " / " ++ toString total_pages ++ "\n\n"
  let lines := paged_rows.map (fun r => format_user_line r now)
  let body := if lines.isEmpty then "(no users to show on this page)"
              else String.intercalate "\n" lines
  header ++ body

/-- The page clamping of `handle_attendance_callback` (src/main.py:347):
`page = max(0, min(page, total_pages - 1))`. -/
def clamp_page (page : Int) (total_pages : Nat) : Nat :=
  (max 0 (min page ((total_pages : Int) - 1))).toNat

/-- The decoding step of `handle_attendance_callback` (src/main.py:332-338):
`cq.data.split("|")` destructured into exactly four parts, with `int(page_s)`;
any failure is the `except` branch. -/
def parse_callback (data : String) : Option (Int × String × String) :=
  match pySplit data '|' with
  | [_, page_s, filter_mode, sort_mode] =>
    match pyToInt page_s with
    | some page => some (page, filter_mode, sort_mode)
    | none => none
  | _ => none

/-- `handle_attendance_callback` (src/main.py:330-357): on a decoding failure
the requester is answered `"Invalid callback data."` and nothing is touched;
otherwise a fresh sweep runs, the snapshot is counted, filtered, sorted, the
page is clamped against the filtered page count, and the page slice is
rendered.  Returns the store after the handler plus the outcome. -/
def handle_attendance_callback (s : Store) (data : String) (now : Int) :
    Store × Except String String :=
  match parse_callback data with
  | none => (s, Except.error "Invalid callback data.")
  | some (page0, filter_mode, sort_mode) =>
    let s1 := scan_and_mark_inactive_once s now
    let rows := all_tracked_users s1
    let counts := compute_counts rows now
    let filtered := filter_and_sort_users rows filter_mode sort_mode now
    let total_pages := build_total_pages filtered.length PAGE_SIZE
    let page := clamp_page page0 total_pages
    let paged := (filtered.drop (page * PAGE_SIZE)).take PAGE_SIZE
    (s1, Except.ok (build_attendance_text paged counts.1 counts.2.1 counts.2.2 page
      PAGE_SIZE filter_mode sort_mode now))

/-- `handle_all_messages` (src/main.py:359-379), the per-user core once the
group/`from_user` transport guards have passed: upsert (bots skipped inside),
then for non-bots `mark_active`, and if the stored `inactive_until` is non-NULL
(`if user and user[5]`), one inactivity reduction. -/
def handle_all_messages (s : Store) (u : TgUser) (now : Int) : Store :=
  let s1 := upsert_user s u.id u.username u.first_name u.last_name u.is_bot now
  if u.is_bot then s1
  else
    let s2 := mark_active s1 u.id now
    match get_user s2 u.id with
    | some row =>
      if row.inactive_until.isSome then
        reduce_inactive_by_minutes s2 u.id MINUTES_REDUCED_PER_MESSAGE now
      else s2
    | none => s2

/-- One iteration of the member loop in `handle_new_members` (src/main.py:381-387). -/
def handle_new_member_step (s : Store) (m : TgUser) (now : Int) : Store :=
  let s1 := upsert_user s m.id m.username m.first_name m.last_name m.is_bot now
  if m.is_bot then s1 else mark_active s1 m.id now

/-- `handle_new_members` (src/main.py:381-387): the loop over `new_chat_members`. -/
def handle_new_members (s : Store) (members : List TgUser) (now : Int) : Store :=
  members.foldl (fun st m => handle_new_member_step st m now) s

/-- `handle_left_member` (src/main.py:389-395): upsert only ("keep history"). -/
def handle_left_member (s : Store) (u : TgUser) (now : Int) : Store :=
  upsert_user s u.id u.username u.first_name u.last_name u.is_bot now

/-- The inbound user-bearing events of the transport. -/
inductive TgEvent where
  | message (u : TgUser)
  | newMembers (us : List TgUser)
  | leftMember (u : TgUser)

/-- Dispatch of one inbound event to its handler. -/
def apply_event (s : Store) (e : TgEvent) (now : Int) : Store :=
  match e with
  | .message u => handle_all_messages s u now
  | .newMembers us => handle_new_members s us now
  | .leftMember u => handle_left_member s u now

/-- The users referenced by an event. -/
def event_users : TgEvent → List TgUser
  | .message u => [u]
  | .newMembers us => us
  | .leftMember u => [u]

/-- A timed sequence of inbound events, applied in order. -/
def apply_events (s : Store) (es : List (TgEvent × Int)) : Store :=
  es.foldl (fun st e => apply_event st e.1 e.2) s


/-! ### Store access lemmas -/

/-- `find?` over a map whose function leaves the predicate invariant. -/
theorem find?_map_of_pred_inv {α : Type} (f : α → α) (p : α → Bool)
    (hf : ∀ x, p (f x) = p x) : ∀ l : List α, (l.map f).find? p = (l.find? p).map f
  | [] => rfl
  | a :: t => by
    cases h : p a with
    | true =>
      rw [List.map_cons, List.find?_cons_of_pos _ (by rw [hf a]; exact h),
          List.find?_cons_of_pos _ h]
      rfl
    | false =>
      rw [List.map_cons, List.find?_cons_of_neg _ (by rw [hf a]; simp [h]),
          List.find?_cons_of_neg _ (by simp [h]), find?_map_of_pred_inv f p hf t]

/-- `get_user` looks through any per-row update that keeps `user_id`. -/
theorem get_user_map (f : UserRow → UserRow) (hf : ∀ x, (f x).user_id = x.user_id)
    (s : Store) (uid : Int) : get_user (s.map f) uid = (get_user s uid).map f :=
  find?_map_of_pred_inv f (fun x => x.user_id == uid) (fun x => by simp [hf x]) s

/-- If `find?` for a weaker predicate already returns `r` and `r` also satisfies
the stronger one, `find?` for the stronger predicate returns `r` too. -/
theorem find?_strengthen {α : Type} {p q : α → Bool} {r : α}
    (himp : ∀ x, q x = true → p x = true) :
    ∀ {l : List α}, l.find? p = some r → q r = true → l.find? q = some r
  | [], h, _ => by cases h
  | a :: t, h, hq => by
    cases hpa : p a with
    | true =>
      rw [List.find?_cons_of_pos _ hpa] at h
      injection h with h
      subst h
      rw [List.find?_cons_of_pos _ hq]
    | false =>
      rw [List.find?_cons_of_neg _ (by simp [hpa])] at h
      have hqa : ¬ q a = true := fun hc => by rw [himp a hc] at hpa; cases hpa
      rw [List.find?_cons_of_neg _ (by simp at hqa ⊢; exact hqa)]
      exact find?_strengthen himp h hq

/-! ### C3: the periodic sweep -/

/-- C3: `scan_and_mark_inactive_once` at time `now` sends the row at any
position `i` as follows: a non-bot row with NULL `inactive_until` and
`last_active = la` with `now - la ≥ INACTIVE_THRESHOLD` becomes the same row
with `inactive_until = now + INACTIVE_PERIOD`, `inactive_marked_at = now`,
`messages_since_inactive = 0` (all other fields unchanged); a row whose
`inactive_until` is non-NULL — even if already elapsed — is unchanged; a row
with `last_active = now - 23h` is unchanged (23h is under the 24h threshold). -/
theorem sweep_spec (s : Store) (now : Int) (i : Nat) (r : UserRow)
    (hr : s[i]? = some r) :
    (∀ la, r.is_bot = false → r.inactive_until = none → r.last_active = some la →
        INACTIVE_THRESHOLD ≤ now - la →
        (scan_and_mark_inactive_once s now)[i]? = some
          { r with inactive_until := some (now + INACTIVE_PERIOD),
                   inactive_marked_at := some now, messages_since_inactive := 0 }) ∧
    (r.inactive_until.isSome = true → (scan_and_mark_inactive_once s now)[i]? = some r) ∧
    (r.last_active = some (now - 23 * 3600) → (scan_and_mark_inactive_once s now)[i]? = some r) := by
  have hmap : ∀ g : UserRow → UserRow, (s.map g)[i]? = some (g r) := by
    intro g
    rw [List.getElem?_map, hr]
    rfl
  refine ⟨?_, ?_, ?_⟩
  · intro la hb hn hla hthr
    rw [scan_and_mark_inactive_once, hmap]
    simp [hb, hn, hla, hthr]
  · intro hsome
    rw [scan_and_mark_inactive_once, hmap]
    rcases hu : r.inactive_until with _ | u
    · rw [hu] at hsome
      cases hsome
    · cases hb : r.is_bot
      · cases hla : r.last_active
        · simp [hb, hla]
        · simp [hb, hla, hu]
      · simp [hb]
  · intro hla
    rw [scan_and_mark_inactive_once, hmap]
    cases hb : r.is_bot
    · rcases hu : r.inactive_until with _ | u
      · simp [hb, hla, hu]
        intro h
        exact absurd h (by decide)
      · simp [hb, hla, hu]
    · simp [hb]

/-- Witness for C3 at `now = 90000` (25 h): user 1 (silent since `0`, i.e. 25 h)
is marked inactive until `176400 = now + 24h`; user 2 (window already set, and
elapsed) is untouched; user 3 (silent 23 h) is untouched. -/
theorem sweep_spec_witness :
    (scan_and_mark_inactive_once
        [UserRow.mk 1 none none none (some 0) none 0 none false,
         UserRow.mk 2 none none none (some 0) (some 10) 3 (some 5) false,
         UserRow.mk 3 none none none (some 7200) none 0 none false] 90000)[0]? =
      some (UserRow.mk 1 none none none (some 0) (some 176400) 0 (some 90000) false) ∧
    (scan_and_mark_inactive_once
        [UserRow.mk 1 none none none (some 0) none 0 none false,
         UserRow.mk 2 none none none (some 0) (some 10) 3 (some 5) false,
         UserRow.mk 3 none none none (some 7200) none 0 none false] 90000)[1]? =
      some (UserRow.mk 2 none none none (some 0) (some 10) 3 (some 5) false) ∧
    (scan_and_mark_inactive_once
        [UserRow.mk 1 none none none (some 0) none 0 none false,
         UserRow.mk 2 none none none (some 0) (some 10) 3 (some 5) false,
         UserRow.mk 3 none none none (some 7200) none 0 none false] 90000)[2]? =
      some (UserRow.mk 3 none none none (some 7200) none 0 none false) := by
  refine ⟨?_, ?_, ?_⟩
  · exact (sweep_spec
      [UserRow.mk 1 none none none (some 0) none 0 none false,
       UserRow.mk 2 none none none (some 0) (some 10) 3 (some 5) false,
       UserRow.mk 3 none none none (some 7200) none 0 none false] 90000 0
      (UserRow.mk 1 none none none (some 0) none 0 none false) rfl).1 0 rfl rfl rfl (by decide)
  · exact (sweep_spec
      [UserRow.mk 1 none none none (some 0) none 0 none false,
       UserRow.mk 2 none none none (some 0) (some 10) 3 (some 5) false,
       UserRow.mk 3 none none none (some 7200) none 0 none false] 90000 1
      (UserRow.mk 2 none none none (some 0) (some 10) 3 (some 5) false) rfl).2.1 rfl
  · exact (sweep_spec
      [UserRow.mk 1 none none none (some 0) none 0 none false,
       UserRow.mk 2 none none none (some 0) (some 10) 3 (some 5) false,
       UserRow.mk 3 none none none (some 7200) none 0 none false] 90000 2
      (UserRow.mk 3 none none none (some 7200) none 0 none false) rfl).2.2 (by decide)


/-! ### C5: effective inactivity in counting and rendering -/

/-- `compute_counts` classifies every row by the effectively-inactive predicate:
the triple it returns is (number of rows not effectively inactive, number of
rows effectively inactive, total number of rows). -/
theorem compute_counts_eq (rows : List UserRow) (now : Int) :
    compute_counts rows now =
      ((rows.filter (fun x => !is_inactive x now)).length,
       (rows.filter (fun x => is_inactive x now)).length, rows.length) := by
  induction rows with
  | nil => rfl
  | cons r rest ih =>
    rcases hu : r.inactive_until with _ | u
    · simp [compute_counts, ih, List.filter_cons, is_inactive, hu]
    · by_cases h : now < u
      · simp [compute_counts, ih, List.filter_cons, is_inactive, hu, h]
      · simp [compute_counts, ih, List.filter_cons, is_inactive, hu, h]

/-- C5: a row is effectively inactive at evaluation time `now` iff
`inactive_until` is non-NULL and strictly greater than `now`; `compute_counts`
counts by exactly this predicate; and a row whose `inactive_until` is non-NULL
but already elapsed renders with status `Active`.  (`compute_counts` and
`format_user_line` are pure functions of the snapshot returning only counts
resp. text, so neither can modify the stored `inactive_until`.) -/
theorem effectively_inactive_spec (rows : List UserRow) (r : UserRow) (now : Int) :
    (is_inactive r now = true ↔ ∃ u, r.inactive_until = some u ∧ now < u) ∧
    (compute_counts rows now =
      ((rows.filter (fun x => !is_inactive x now)).length,
       (rows.filter (fun x => is_inactive x now)).length, rows.length)) ∧
    (∀ u, r.inactive_until = some u → u ≤ now →
      status_of r now = "Active" ∧ is_inactive r now = false ∧
      format_user_line r now = display_name r ++ " | Active") := by
  refine ⟨?_, compute_counts_eq rows now, ?_⟩
  · rcases hu : r.inactive_until with _ | u
    · simp [is_inactive, hu]
    · by_cases h : now < u
      · simp [is_inactive, hu, h]
      · simp [is_inactive, hu, h]
  · intro u hu hle
    refine ⟨?_, ?_, ?_⟩
    · unfold status_of
      rw [hu]
      dsimp only
      rw [if_neg (by omega)]
    · simp [is_inactive, hu]
      omega
    · unfold format_user_line status_of
      rw [hu]
      dsimp only
      rw [if_neg (by omega)]
      rw [String.append_assoc]
      congr 1

/-- Witness for C5: a row whose window ended at `10` is Active at `now = 50`
although the stored field is still non-NULL, and a row with a window until
`100` is effectively inactive at `now = 0`. -/
theorem effectively_inactive_spec_witness :
    status_of (UserRow.mk 2 none none none none (some 10) 0 (some 0) false) 50 = "Active" ∧
    is_inactive (UserRow.mk 2 none none none none (some 10) 0 (some 0) false) 50 = false ∧
    is_inactive (UserRow.mk 3 none none none none (some 100) 0 (some 0) false) 0 = true := by
  refine ⟨?_, ?_, ?_⟩
  · exact ((effectively_inactive_spec []
      (UserRow.mk 2 none none none none (some 10) 0 (some 0) false) 50).2.2 10 rfl
      (by decide)).1
  · exact ((effectively_inactive_spec []
      (UserRow.mk 2 none none none none (some 10) 0 (some 0) false) 50).2.2 10 rfl
      (by decide)).2.1
  · exact (effectively_inactive_spec []
      (UserRow.mk 3 none none none none (some 100) 0 (some 0) false) 0).1.mpr
      ⟨100, rfl, by decide⟩

/-! ### C6: counts and filters partition the snapshot -/

/-- The `"active"` filter keeps exactly the not-effectively-inactive rows. -/
theorem keeps_active (r : UserRow) (now : Int) :
    keeps "active" r now = !is_inactive r now := by
  have h2 : (("active" : String) == "inactive") = false := by decide
  simp [keeps, h2]

/-- The `"inactive"` filter keeps exactly the effectively-inactive rows. -/
theorem keeps_inactive (r : UserRow) (now : Int) :
    keeps "inactive" r now = is_inactive r now := by
  have h1 : (("inactive" : String) == "active") = false := by decide
  simp [keeps, h1]

/-- The `"all"` filter keeps every row. -/
theorem keeps_all (r : UserRow) (now : Int) : keeps "all" r now = true := by
  have h1 : (("all" : String) == "active") = false := by decide
  have h2 : (("all" : String) == "inactive") = false := by decide
  simp [keeps, h1, h2]

/-- Whatever the sort mode, `filter_and_sort_users` permutes the filtered rows. -/
theorem filter_and_sort_perm (rows : List UserRow) (fm sm : String) (now : Int) :
    (filter_and_sort_users rows fm sm now).Perm
      (rows.filter (fun r => keeps fm r now)) := by
  simp only [filter_and_sort_users]
  split
  · exact List.perm_insertionSort _ _
  · exact List.perm_insertionSort _ _

/-- C6: active + inactive = total for every snapshot, and — for every sort
mode — the `"active"` list and the `"inactive"` list are disjoint (every member
of the former is effectively active, of the latter effectively inactive) and
together are a permutation of the `"all"` list. -/
theorem counts_partition_spec (rows : List UserRow) (now : Int) :
    ((compute_counts rows now).1 + (compute_counts rows now).2.1 =
      (compute_counts rows now).2.2) ∧
    (∀ sm, ((filter_and_sort_users rows "active" sm now) ++
        (filter_and_sort_users rows "inactive" sm now)).Perm
        (filter_and_sort_users rows "all" sm now)) ∧
    (∀ sm r, r ∈ filter_and_sort_users rows "active" sm now →
      is_inactive r now = false) ∧
    (∀ sm r, r ∈ filter_and_sort_users rows "inactive" sm now →
      is_inactive r now = true) := by
  have hsplit : (rows.filter (fun x => !is_inactive x now) ++
      rows.filter (fun x => is_inactive x now)).Perm rows := by
    have := List.filter_append_perm (fun x => !is_inactive x now) rows
    simpa [Bool.not_not] using this
  refine ⟨?_, ?_, ?_, ?_⟩
  · rw [compute_counts_eq]
    have := hsplit.length_eq
    simpa [List.length_append] using this
  · intro sm
    have hA := filter_and_sort_perm rows "active" sm now
    have hI := filter_and_sort_perm rows "inactive" sm now
    have hall := filter_and_sort_perm rows "all" sm now
    rw [List.filter_congr (fun x _ => keeps_active x now)] at hA
    rw [List.filter_congr (fun x _ => keeps_inactive x now)] at hI
    rw [List.filter_congr (fun x _ => keeps_all x now), List.filter_true] at hall
    exact ((hA.append hI).trans hsplit).trans hall.symm
  · intro sm r hm
    have hmem := (filter_and_sort_perm rows "active" sm now).mem_iff.mp hm
    have := List.of_mem_filter hmem
    rw [keeps_active] at this
    simpa using this
  · intro sm r hm
    have hmem := (filter_and_sort_perm rows "inactive" sm now).mem_iff.mp hm
    have := List.of_mem_filter hmem
    rw [keeps_inactive] at this
    exact this

/-- Witness for C6 on a two-row snapshot (one active, one inactive) at `now = 0`. -/
theorem counts_partition_spec_witness :
    ((compute_counts [UserRow.mk 1 none none none none none 0 none false,
        UserRow.mk 2 none none none none (some 100) 0 (some 0) false] 0).1 +
      (compute_counts [UserRow.mk 1 none none none none none 0 none false,
        UserRow.mk 2 none none none none (some 100) 0 (some 0) false] 0).2.1 =
      (compute_counts [UserRow.mk 1 none none none none none 0 none false,
        UserRow.mk 2 none none none none (some 100) 0 (some 0) false] 0).2.2) ∧
    is_inactive (UserRow.mk 1 none none none none none 0 none false) 0 = false ∧
    is_inactive (UserRow.mk 2 none none none none (some 100) 0 (some 0) false) 0 = true := by
  refine ⟨?_, ?_, ?_⟩
  · exact (counts_partition_spec
      [UserRow.mk 1 none none none none none 0 none false,
       UserRow.mk 2 none none none none (some 100) 0 (some 0) false] 0).1
  · exact (counts_partition_spec
      [UserRow.mk 1 none none none none none 0 none false,
       UserRow.mk 2 none none none none (some 100) 0 (some 0) false] 0).2.2.1 "name"
      (UserRow.mk 1 none none none none none 0 none false) (by decide)
  · exact (counts_partition_spec
      [UserRow.mk 1 none none none none none 0 none false,
       UserRow.mk 2 none none none none (some 100) 0 (some 0) false] 0).2.2.2 "name"
      (UserRow.mk 2 none none none none (some 100) 0 (some 0) false) (by decide)


/-! ### C10: the name sort -/

instance : IsTotal UserRow (fun a b => name_key a ≤ name_key b) :=
  ⟨fun a b => le_total (name_key a) (name_key b)⟩

instance : IsTrans UserRow (fun a b => name_key a ≤ name_key b) :=
  ⟨fun _ _ _ hab hbc => le_trans hab hbc⟩

/-- With `sort_mode = "name"`, `filter_and_sort_users` is the stable insertion
sort by `name_key` of the filtered rows. -/
theorem filter_and_sort_name (rows : List UserRow) (fm : String) (now : Int) :
    filter_and_sort_users rows fm "name" now =
      (rows.filter (fun r => keeps fm r now)).insertionSort
        (fun a b => name_key a ≤ name_key b) := by
  simp [filter_and_sort_users]

/-- Inserting `a` in key order: the sublist of rows with any fixed key value
`k` gains `a` at its front when `key a = k` and is unchanged otherwise. -/
theorem filter_key_orderedInsert {α β : Type} [LinearOrder β]
    (key : α → β) [DecidableEq β] (k : β) (a : α) :
    ∀ l : List α,
      (l.orderedInsert (fun x y => key x ≤ key y) a).filter (fun x => key x == k) =
        if key a == k then a :: l.filter (fun x => key x == k)
        else l.filter (fun x => key x == k)
  | [] => by
    rw [List.orderedInsert, List.filter_cons]
  | b :: l => by
    by_cases hab : key a ≤ key b
    · rw [List.orderedInsert, if_pos hab, List.filter_cons]
    · rw [List.orderedInsert, if_neg hab, List.filter_cons,
        filter_key_orderedInsert key k a l]
      by_cases hak : (key a == k) = true
      · have hbkf : (key b == k) = false := by
          have h1 : key a = k := by simpa using hak
          rcases hb2 : key b == k with _ | _
          · rfl
          · exfalso
            have h2 : key b = k := by simpa using hb2
            exact hab (le_of_eq (h1.trans h2.symm))
        simp [hak, hbkf, List.filter_cons]
      · have hakf : (key a == k) = false := by simpa using hak
        simp [hakf, List.filter_cons]

/-- Stability of the key-ordered insertion sort: rows of any fixed key value
keep exactly their original relative order. -/
theorem filter_key_insertionSort {α β : Type} [LinearOrder β]
    (key : α → β) [DecidableEq β] (k : β) :
    ∀ l : List α,
      (l.insertionSort (fun x y => key x ≤ key y)).filter (fun x => key x == k) =
        l.filter (fun x => key x == k)
  | [] => rfl
  | a :: l => by
    rw [List.insertionSort, filter_key_orderedInsert key k a,
      filter_key_insertionSort key k l, List.filter_cons]

/-- C10: with `sort_mode = "name"` the output of `filter_and_sort_users` is
sorted ascending by the case-insensitive key `name_key` (`username` if
present, else `first_name`, else the string form of `user_id`); the sort is
stable — for every key value the rows carrying it appear exactly in their
filtered-snapshot order — and applying the same filter-and-sort to its own
output returns it unchanged. -/
theorem name_sort_spec (rows : List UserRow) (fm : String) (now : Int) :
    (filter_and_sort_users rows fm "name" now).Sorted
        (fun a b => name_key a ≤ name_key b) ∧
    (∀ k, (filter_and_sort_users rows fm "name" now).filter (fun r => name_key r == k) =
        (rows.filter (fun r => keeps fm r now)).filter (fun r => name_key r == k)) ∧
    filter_and_sort_users (filter_and_sort_users rows fm "name" now) fm "name" now =
      filter_and_sort_users rows fm "name" now := by
  refine ⟨?_, ?_, ?_⟩
  · rw [filter_and_sort_name]
    exact List.sorted_insertionSort _ _
  · intro k
    rw [filter_and_sort_name]
    exact filter_key_insertionSort name_key k _
  · rw [filter_and_sort_name rows, filter_and_sort_name]
    have hfilter : (((rows.filter (fun r => keeps fm r now)).insertionSort
        (fun a b => name_key a ≤ name_key b)).filter (fun r => keeps fm r now)) =
        (rows.filter (fun r => keeps fm r now)).insertionSort
          (fun a b => name_key a ≤ name_key b) := by
      apply List.filter_eq_self.mpr
      intro x hx
      have hx2 : x ∈ rows.filter (fun r => keeps fm r now) :=
        (List.perm_insertionSort (fun a b => name_key a ≤ name_key b)
          (rows.filter (fun r => keeps fm r now))).mem_iff.mp hx
      have h3 := List.of_mem_filter hx2
      exact h3
    rw [hfilter]
    exact List.Sorted.insertionSort_eq (List.sorted_insertionSort _ _)


/-! ### C9: `inactive_until` and `inactive_marked_at` are NULL together -/

/-- The pairing invariant of the spec: `inactive_until` and
`inactive_marked_at` are both NULL or both non-NULL. -/
def InactivePaired (r : UserRow) : Prop :=
  r.inactive_until = none ↔ r.inactive_marked_at = none

instance (r : UserRow) : Decidable (InactivePaired r) := by
  unfold InactivePaired
  infer_instance

/-- C9: on a store whose rows satisfy the pairing invariant (and whose
`user_id`s are unique, as the PRIMARY KEY guarantees), every mutating
operation — row creation and name update (`upsert_user`), activity update
(`mark_active`), inactivity marking (`set_inactive`, and the sweep), clearing
(`clear_inactive`), and the per-message reduction — yields a store whose rows
all still satisfy it; in particular the reduction path that shortens the
window without clearing it keeps both fields non-NULL. -/
theorem inactive_paired_spec (s : Store)
    (hids : (s.map (fun r => r.user_id)).Nodup)
    (hinv : ∀ r ∈ s, InactivePaired r) :
    (∀ uid un fn ln b now, ∀ r ∈ upsert_user s uid un fn ln b now, InactivePaired r) ∧
    (∀ uid now, ∀ r ∈ mark_active s uid now, InactivePaired r) ∧
    (∀ uid now, ∀ r ∈ set_inactive s uid now, InactivePaired r) ∧
    (∀ uid, ∀ r ∈ clear_inactive s uid, InactivePaired r) ∧
    (∀ uid m now, ∀ r ∈ reduce_inactive_by_minutes s uid m now, InactivePaired r) ∧
    (∀ now, ∀ r ∈ scan_and_mark_inactive_once s now, InactivePaired r) := by
  refine ⟨?_, ?_, ?_, ?_, ?_, ?_⟩
  · intro uid un fn ln b now r hr
    unfold upsert_user at hr
    by_cases hb : b = true
    · rw [if_pos hb] at hr
      exact hinv r hr
    · rw [if_neg hb] at hr
      by_cases hany : (s.any fun x => x.user_id == uid) = true
      · rw [if_pos hany] at hr
        rcases List.mem_map.mp hr with ⟨x, hx, rfl⟩
        by_cases hid : (x.user_id == uid) = true
        · simpa [hid, InactivePaired] using hinv x hx
        · simpa [hid, InactivePaired] using hinv x hx
      · rw [if_neg hany] at hr
        rcases List.mem_append.mp hr with h | h
        · exact hinv r h
        · simp only [List.mem_singleton] at h
          subst h
          unfold InactivePaired
          simp
  · intro uid now r hr
    rcases List.mem_map.mp hr with ⟨x, hx, rfl⟩
    by_cases hid : (x.user_id == uid && !x.is_bot) = true
    · simpa [hid, InactivePaired] using hinv x hx
    · simpa [hid, InactivePaired] using hinv x hx
  · intro uid now r hr
    rcases List.mem_map.mp hr with ⟨x, hx, rfl⟩
    by_cases hid : (x.user_id == uid && !x.is_bot) = true
    · simp [hid, InactivePaired]
    · simpa [hid, InactivePaired] using hinv x hx
  · intro uid r hr
    rcases List.mem_map.mp hr with ⟨x, hx, rfl⟩
    by_cases hid : (x.user_id == uid && !x.is_bot) = true
    · simp [hid, InactivePaired]
    · simpa [hid, InactivePaired] using hinv x hx
  · intro uid m now r hr
    unfold reduce_inactive_by_minutes at hr
    split at hr
    next => exact hinv r hr
    next row hf =>
      split at hr
      next => exact hinv r hr
      next u hu =>
        dsimp only at hr
        split at hr
        next hcond =>
          rcases List.mem_map.mp hr with ⟨x, hx, rfl⟩
          by_cases hid : (x.user_id == uid && !x.is_bot) = true
          · simp [hid, InactivePaired]
          · simpa [hid, InactivePaired] using hinv x hx
        next hcond =>
          rcases List.mem_map.mp hr with ⟨x, hx, rfl⟩
          by_cases hid : (x.user_id == uid && !x.is_bot) = true
          · have hrow_mem := List.mem_of_find?_eq_some hf
            have hrow_p := List.find?_some hf
            simp only [Bool.and_eq_true, beq_iff_eq, Bool.not_eq_eq_eq_not, Bool.not_true]
              at hid hrow_p
            have hxrow : x = row :=
              List.inj_on_of_nodup_map hids hx hrow_mem (by rw [hid.1, hrow_p.1])
            subst hxrow
            have hpx := hinv x hx
            unfold InactivePaired at hpx
            rw [hu] at hpx
            simp at hpx
            simp [hid, InactivePaired, hpx]
          · simpa [hid, InactivePaired] using hinv x hx
  · intro now r hr
    unfold scan_and_mark_inactive_once at hr
    rcases List.mem_map.mp hr with ⟨x, hx, rfl⟩
    by_cases hb : x.is_bot = true
    · simpa [hb, InactivePaired] using hinv x hx
    · cases hla : x.last_active with
      | none => simpa [hb, hla, InactivePaired] using hinv x hx
      | some la =>
        cases hu : x.inactive_until with
        | some u => simpa [hb, hla, hu, InactivePaired] using hinv x hx
        | none =>
          by_cases hthr : INACTIVE_THRESHOLD ≤ now - la
          · simp [hb, hla, hu, hthr, InactivePaired]
          · simpa [hb, hla, hu, hthr, InactivePaired] using hinv x hx

/-- Witness for C9: the non-clearing reduction path (counter 3 → 4, window
200 → 140 at `now = 50`) keeps both inactivity fields non-NULL. -/
theorem inactive_paired_spec_witness :
    InactivePaired (UserRow.mk 1 none none none (some 0) (some 140) 4 (some 0) false) := by
  exact (inactive_paired_spec
    [UserRow.mk 1 none none none (some 0) (some 200) 3 (some 0) false]
    (by decide) (by decide)).2.2.2.2.1 1 1 50
    (UserRow.mk 1 none none none (some 0) (some 140) 4 (some 0) false) (by decide)


/-! ### C8: malformed navigation requests and page clamping -/

/-- C8: an unparseable callback encoding — wrong field count, or a page field
that is not an integer — makes `handle_attendance_callback` report
`"Invalid callback data."` to the requester and leave the store untouched (no
sweep runs, no record changes); a parseable encoding is never an error: the
handler always returns a rendered report, with the requested page clamped by
`clamp_page` into `[0, total_pages-1]` — negative pages to `0`, pages beyond
`total_pages - 1` to `total_pages - 1`, in-range pages unchanged — and the
displayed page count is always at least 1. -/
theorem navigation_spec (s : Store) (data : String) (now : Int) :
    ((pySplit data '|').length ≠ 4 → parse_callback data = none) ∧
    (∀ a b c d, pySplit data '|' = [a, b, c, d] → pyToInt b = none →
      parse_callback data = none) ∧
    (parse_callback data = none →
      handle_attendance_callback s data now = (s, Except.error "Invalid callback data.")) ∧
    (∀ p fm sm, parse_callback data = some (p, fm, sm) →
      (handle_attendance_callback s data now).1 = scan_and_mark_inactive_once s now ∧
      ∃ t, (handle_attendance_callback s data now).2 = Except.ok t) ∧
    (∀ (p : Int) (tp : Nat), 1 ≤ tp →
      (p < 0 → clamp_page p tp = 0) ∧
      ((tp : Int) - 1 < p → clamp_page p tp = tp - 1) ∧
      (0 ≤ p → p ≤ (tp : Int) - 1 → (clamp_page p tp : Int) = p) ∧
      clamp_page p tp ≤ tp - 1) ∧
    (∀ count, 1 ≤ build_total_pages count PAGE_SIZE) := by
  refine ⟨?_, ?_, ?_, ?_, ?_, ?_⟩
  · intro h
    unfold parse_callback
    split
    · rename_i x ps fm sm heq
      have hlen : (pySplit data '|').length = 4 := by rw [heq]; rfl
      exact absurd hlen h
    · rfl
  · intro a b c d heq hb
    unfold parse_callback
    rw [heq]
    show (match pyToInt b with
      | some page => some (page, c, d)
      | none => none) = none
    rw [hb]
  · intro h
    unfold handle_attendance_callback
    rw [h]
  · intro p fm sm h
    unfold handle_attendance_callback
    rw [h]
    exact ⟨rfl, _, rfl⟩
  · intro p tp htp
    refine ⟨?_, ?_, ?_, ?_⟩
    · intro h
      unfold clamp_page
      omega
    · intro h
      unfold clamp_page
      omega
    · intro h1 h2
      unfold clamp_page
      omega
    · unfold clamp_page
      omega
  · intro count
    unfold build_total_pages
    split
    · rename_i h
      simp only [bne_iff_ne, ne_eq] at h
      unfold PAGE_SIZE
      omega
    · exact Nat.le_refl 1

/-- Witness for C8: `"ATT|2|all"` (three fields) and `"ATT|x|all|name"`
(non-integer page) are malformed and leave the store untouched;
`"ATT|7|all|name"` is handled with a sweep — as are the pages `" 5"`
(whitespace, `int` strips it), `"1_0"` (underscore separator) and `"٥"`
(Unicode digit), which Python parses and which are therefore not errors;
clamping sends `-5 → 0`, `7 → 2` and keeps `1` on 3 pages. -/
theorem navigation_spec_witness :
    parse_callback "ATT|2|all" = none ∧
    parse_callback "ATT|x|all|name" = none ∧
    handle_attendance_callback [] "ATT|x|all|name" 0 =
      ([], Except.error "Invalid callback data.") ∧
    (handle_attendance_callback [] "ATT|7|all|name" 0).1 =
      scan_and_mark_inactive_once [] 0 ∧
    (handle_attendance_callback [] "ATT| 5|all|name" 0).1 =
      scan_and_mark_inactive_once [] 0 ∧
    (handle_attendance_callback [] "ATT|1_0|all|name" 0).1 =
      scan_and_mark_inactive_once [] 0 ∧
    (handle_attendance_callback [] "ATT|٥|all|name" 0).1 =
      scan_and_mark_inactive_once [] 0 ∧
    clamp_page (-5) 3 = 0 ∧ clamp_page 7 3 = 2 ∧ (clamp_page 1 3 : Int) = 1 ∧
    1 ≤ build_total_pages 0 PAGE_SIZE := by
  refine ⟨?_, ?_, ?_, ?_, ?_, ?_, ?_, ?_, ?_, ?_, ?_⟩
  · exact (navigation_spec [] "ATT|2|all" 0).1 (by decide)
  · exact (navigation_spec [] "ATT|x|all|name" 0).2.1 "ATT" "x" "all" "name"
      (by decide) (by decide)
  · exact (navigation_spec [] "ATT|x|all|name" 0).2.2.1 (by decide)
  · exact ((navigation_spec [] "ATT|7|all|name" 0).2.2.2.1 7 "all" "name" (by decide)).1
  · exact ((navigation_spec [] "ATT| 5|all|name" 0).2.2.2.1 5 "all" "name" (by decide)).1
  · exact ((navigation_spec [] "ATT|1_0|all|name" 0).2.2.2.1 10 "all" "name" (by decide)).1
  · exact ((navigation_spec [] "ATT|٥|all|name" 0).2.2.2.1 5 "all" "name" (by decide)).1
  · exact ((navigation_spec [] "x" 0).2.2.2.2.1 (-5) 3 (by decide)).1 (by decide)
  · exact ((navigation_spec [] "x" 0).2.2.2.2.1 7 3 (by decide)).2.1 (by decide)
  · exact ((navigation_spec [] "x" 0).2.2.2.2.1 1 3 (by decide)).2.2.1 (by decide) (by decide)
  · exact (navigation_spec [] "x" 0).2.2.2.2.2 0


/-! ### C2: one message while effectively inactive -/

/-- C2: one `handle_all_messages` event for a non-bot user whose stored row is
effectively inactive (`inactive_until = u > now`) sets `last_active = now` and
then increments the pending counter: if the incremented counter reaches
`MESSAGES_TO_CLEAR_INACTIVE` or `inactive_until` minus one minute is at or
before `now`, the row transitions to Active (`inactive_until` and
`inactive_marked_at` NULL, counter 0); otherwise `inactive_until` shrinks by
exactly one minute and the incremented counter is persisted (with
`inactive_marked_at` untouched). -/
theorem on_activity_inactive_spec (s : Store) (ev : TgUser) (r : UserRow) (now u : Int)
    (hbot : ev.is_bot = false) (hget : get_user s ev.id = some r)
    (hrbot : r.is_bot = false) (hu : r.inactive_until = some u) (heff : now < u) :
    ∃ r', get_user (handle_all_messages s ev now) ev.id = some r' ∧
      r'.last_active = some now ∧
      (if MESSAGES_TO_CLEAR_INACTIVE ≤ r.messages_since_inactive + 1 ∨
          u - MINUTES_REDUCED_PER_MESSAGE * 60 ≤ now then
        r'.inactive_until = none ∧ r'.inactive_marked_at = none ∧
          r'.messages_since_inactive = 0
      else
        r'.inactive_until = some (u - MINUTES_REDUCED_PER_MESSAGE * 60) ∧
          r'.messages_since_inactive = r.messages_since_inactive + 1 ∧
          r'.inactive_marked_at = r.inactive_marked_at) := by
  have hget' : s.find? (fun x => x.user_id == ev.id) = some r := hget
  have hrid0 := List.find?_some hget'
  have hrid : (r.user_id == ev.id) = true := hrid0
  have hride : r.user_id = ev.id := by simpa using hrid
  have hany : (s.any fun x => x.user_id == ev.id) = true :=
    List.any_eq_true.mpr ⟨r, List.mem_of_find?_eq_some hget', hrid⟩
  have hg1 : get_user (upsert_user s ev.id ev.username ev.first_name ev.last_name false now)
      ev.id = some { r with username := coalesce ev.username r.username, first_name := coalesce ev.first_name r.first_name, last_name := coalesce ev.last_name r.last_name, is_bot := false } := by
    unfold upsert_user
    rw [if_neg Bool.false_ne_true, if_pos hany]
    rw [get_user_map (fun x => if x.user_id == ev.id then { x with username := coalesce ev.username x.username, first_name := coalesce ev.first_name x.first_name, last_name := coalesce ev.last_name x.last_name, is_bot := false } else x) (fun x => by by_cases hx : (x.user_id == ev.id) = true <;> simp [hx]) s ev.id, hget]
    simp [hride]
  have hg2 : get_user (mark_active
        (upsert_user s ev.id ev.username ev.first_name ev.last_name false now) ev.id now)
      ev.id = some { r with username := coalesce ev.username r.username, first_name := coalesce ev.first_name r.first_name, last_name := coalesce ev.last_name r.last_name, last_active := some now, is_bot := false } := by
    unfold mark_active
    rw [get_user_map (fun x => if x.user_id == ev.id && !x.is_bot then { x with last_active := some now, messages_since_inactive := match x.inactive_until with | some u => if now < u then x.messages_since_inactive else 0 | none => 0 } else x) (fun x => by by_cases hx : (x.user_id == ev.id && !x.is_bot) = true <;> simp [hx]) _ ev.id, hg1]
    simp [hride, hu, heff]
  have hg2' : (mark_active
        (upsert_user s ev.id ev.username ev.first_name ev.last_name false now) ev.id
        now).find? (fun x => x.user_id == ev.id) = some { r with username := coalesce ev.username r.username, first_name := coalesce ev.first_name r.first_name, last_name := coalesce ev.last_name r.last_name, last_active := some now, is_bot := false } := hg2
  have hq2 : (({ r with username := coalesce ev.username r.username, first_name := coalesce ev.first_name r.first_name, last_name := coalesce ev.last_name r.last_name, last_active := some now, is_bot := false } : UserRow).user_id == ev.id && !({ r with username := coalesce ev.username r.username, first_name := coalesce ev.first_name r.first_name, last_name := coalesce ev.last_name r.last_name, last_active := some now, is_bot := false } : UserRow).is_bot) = true := by
    simp [hride]
  have hr2u : ({ r with username := coalesce ev.username r.username, first_name := coalesce ev.first_name r.first_name, last_name := coalesce ev.last_name r.last_name, last_active := some now, is_bot := false } : UserRow).inactive_until = some u := hu
  have hfind2 : (mark_active
        (upsert_user s ev.id ev.username ev.first_name ev.last_name false now) ev.id
        now).find? (fun x => x.user_id == ev.id && !x.is_bot) = some { r with username := coalesce ev.username r.username, first_name := coalesce ev.first_name r.first_name, last_name := coalesce ev.last_name r.last_name, last_active := some now, is_bot := false } :=
    find?_strengthen (fun x hx => by
        simp only [Bool.and_eq_true] at hx
        exact hx.1) hg2' hq2
  unfold handle_all_messages
  rw [hbot]
  rw [if_neg Bool.false_ne_true]
  dsimp only
  rw [hg2]
  dsimp only
  rw [if_pos (by rw [hr2u]; rfl : (({ r with username := coalesce ev.username r.username, first_name := coalesce ev.first_name r.first_name, last_name := coalesce ev.last_name r.last_name, last_active := some now, is_bot := false } : UserRow).inactive_until.isSome = true))]
  unfold reduce_inactive_by_minutes
  rw [hfind2]
  dsimp only
  rw [hr2u]
  dsimp only
  by_cases hcond : MESSAGES_TO_CLEAR_INACTIVE ≤ r.messages_since_inactive + 1 ∨
      u - MINUTES_REDUCED_PER_MESSAGE * 60 ≤ now
  · rw [if_pos hcond]
    rw [get_user_map (fun x => if x.user_id == ev.id && !x.is_bot then { x with inactive_until := none, messages_since_inactive := 0, inactive_marked_at := none } else x) (fun x => by by_cases hx : (x.user_id == ev.id && !x.is_bot) = true <;> simp [hx]) _ ev.id, hg2]
    refine ⟨_, rfl, ?_, ?_⟩
    · simp [hride]
    · rw [if_pos hcond]
      refine ⟨?_, ?_, ?_⟩ <;> simp [hride]
  · rw [if_neg hcond]
    rw [get_user_map (fun x => if x.user_id == ev.id && !x.is_bot then { x with inactive_until := some (u - MINUTES_REDUCED_PER_MESSAGE * 60), messages_since_inactive := r.messages_since_inactive + 1 } else x) (fun x => by by_cases hx : (x.user_id == ev.id && !x.is_bot) = true <;> simp [hx]) _ ev.id, hg2]
    refine ⟨_, rfl, ?_, ?_⟩
    · simp [hride]
    · rw [if_neg hcond]
      refine ⟨?_, ?_, ?_⟩ <;> simp [hride]

/-- Witness for C2, the spec concrete example: `inactive_until = now + 2 min`
(`1120` at `now = 1000`), `pendingCount = 14`; one message fully clears the
inactivity. -/
theorem on_activity_inactive_witness :
    ∃ r', get_user (handle_all_messages
        [UserRow.mk 5 none none none (some 0) (some 1120) 14 (some 0) false]
        (TgUser.mk 5 none none none false) 1000) 5 = some r' ∧
      r'.last_active = some 1000 ∧ r'.inactive_until = none ∧
      r'.inactive_marked_at = none ∧ r'.messages_since_inactive = 0 := by
  rcases on_activity_inactive_spec
      [UserRow.mk 5 none none none (some 0) (some 1120) 14 (some 0) false]
      (TgUser.mk 5 none none none false)
      (UserRow.mk 5 none none none (some 0) (some 1120) 14 (some 0) false)
      1000 1120 rfl rfl rfl rfl (by decide) with ⟨r', hg, hl, hrest⟩
  rw [if_pos (by decide)] at hrest
  exact ⟨r', hg, hl, hrest.1, hrest.2.1, hrest.2.2⟩


/-! ### C7: bot accounts never appear -/

/-- Joining members who are all bots change nothing. -/
theorem handle_new_members_bot : ∀ (us : List TgUser) (s : Store) (now : Int),
    (∀ u ∈ us, u.is_bot = true) → handle_new_members s us now = s
  | [], _, _, _ => rfl
  | m :: t, s, now, h => by
    have hm : m.is_bot = true := h m (List.mem_cons_self m t)
    have hstep : handle_new_member_step s m now = s := by
      simp [handle_new_member_step, upsert_user, hm]
    rw [handle_new_members, List.foldl_cons, hstep]
    exact handle_new_members_bot t s now (fun u hu => h u (List.mem_cons_of_mem m hu))

/-- An event all of whose referenced users are bots changes nothing. -/
theorem apply_event_bot (s : Store) (e : TgEvent) (now : Int)
    (h : ∀ u ∈ event_users e, u.is_bot = true) : apply_event s e now = s := by
  cases e with
  | message u =>
    have hu : u.is_bot = true := h u (by simp [event_users])
    simp [apply_event, handle_all_messages, upsert_user, hu]
  | newMembers us =>
    have hus : ∀ u ∈ us, u.is_bot = true := by
      intro u hm
      exact h u (by simpa [event_users] using hm)
    simp only [apply_event]
    exact handle_new_members_bot us s now hus
  | leftMember u =>
    have hu : u.is_bot = true := h u (by simp [event_users])
    simp [apply_event, handle_left_member, upsert_user, hu]

/-- A whole sequence of bot-only events changes nothing. -/
theorem apply_events_bot (es : List (TgEvent × Int)) :
    ∀ s : Store, (∀ p ∈ es, ∀ u ∈ event_users p.1, u.is_bot = true) →
      apply_events s es = s := by
  induction es with
  | nil => intro s _; rfl
  | cons p t ih =>
    intro s h
    rw [apply_events, List.foldl_cons,
      apply_event_bot s p.1 p.2 (h p (List.mem_cons_self p t))]
    exact ih s (fun q hq => h q (List.mem_cons_of_mem p hq))

/-- C7: events whose users are all flagged as bots create and update no
record — singly and over any timed event sequence — and every read excludes
bot rows: the snapshot (`all_tracked_users`) contains only non-bot rows,
hence so do the aggregate counts (computed over that snapshot) and every
filtered/sorted report list. -/
theorem bot_exclusion_spec (s : Store) (now : Int) :
    (∀ e : TgEvent, (∀ u ∈ event_users e, u.is_bot = true) → apply_event s e now = s) ∧
    (∀ es : List (TgEvent × Int), (∀ p ∈ es, ∀ u ∈ event_users p.1, u.is_bot = true) →
      apply_events s es = s) ∧
    (∀ r ∈ all_tracked_users s, r.is_bot = false) ∧
    (∀ fm sm, ∀ r ∈ filter_and_sort_users (all_tracked_users s) fm sm now,
      r.is_bot = false) ∧
    (compute_counts (all_tracked_users s) now).2.2 = (all_tracked_users s).length := by
  have hsnap : ∀ r ∈ all_tracked_users s, r.is_bot = false := by
    intro r hr
    have h2 := List.of_mem_filter hr
    simpa using h2
  refine ⟨fun e he => apply_event_bot s e now he,
    fun es hes => apply_events_bot es s hes, hsnap, ?_, ?_⟩
  · intro fm sm r hr
    have hmem : r ∈ (all_tracked_users s).filter (fun x => keeps fm x now) :=
      (filter_and_sort_perm (all_tracked_users s) fm sm now).mem_iff.mp hr
    exact hsnap r (List.mem_of_mem_filter hmem)
  · rw [compute_counts_eq]

/-- Witness for C7: a store holding one pre-existing bot row and one human row;
bot-only events (message, join, departure, and a two-event sequence) leave it
unchanged, and the snapshot exposes only the human row. -/
theorem bot_exclusion_spec_witness :
    apply_event
        [UserRow.mk 1 none none none (some 0) none 0 none true,
         UserRow.mk 2 none none none (some 0) none 0 none false]
        (TgEvent.message (TgUser.mk 9 none none none true)) 0 =
      [UserRow.mk 1 none none none (some 0) none 0 none true,
       UserRow.mk 2 none none none (some 0) none 0 none false] ∧
    apply_events
        [UserRow.mk 1 none none none (some 0) none 0 none true,
         UserRow.mk 2 none none none (some 0) none 0 none false]
        [(TgEvent.newMembers [TgUser.mk 9 none none none true], 0),
         (TgEvent.leftMember (TgUser.mk 9 none none none true), 5)] =
      [UserRow.mk 1 none none none (some 0) none 0 none true,
       UserRow.mk 2 none none none (some 0) none 0 none false] ∧
    (UserRow.mk 2 none none none (some 0) none 0 none false).is_bot = false := by
  refine ⟨?_, ?_, ?_⟩
  · exact (bot_exclusion_spec
      [UserRow.mk 1 none none none (some 0) none 0 none true,
       UserRow.mk 2 none none none (some 0) none 0 none false] 0).1
      (TgEvent.message (TgUser.mk 9 none none none true)) (by decide)
  · exact (bot_exclusion_spec
      [UserRow.mk 1 none none none (some 0) none 0 none true,
       UserRow.mk 2 none none none (some 0) none 0 none false] 0).2.1
      [(TgEvent.newMembers [TgUser.mk 9 none none none true], 0),
       (TgEvent.leftMember (TgUser.mk 9 none none none true), 5)] (by decide)
  · exact (bot_exclusion_spec
      [UserRow.mk 1 none none none (some 0) none 0 none true,
       UserRow.mk 2 none none none (some 0) none 0 none false] 0).2.2.1
      (UserRow.mk 2 none none none (some 0) none 0 none false) (by decide)


/-! ### C4: departures and `last_active` at creation -/

/-- Counterexample for C4 as stated: a departure event for a previously
untracked non-bot user creates a record whose `last_active` is the event time
(the INSERT in `upsert_user` sets `last_active = now`), not NULL. -/
theorem departure_null_last_active_cex :
    (handle_left_member [] (TgUser.mk 1 none (some "Ann") none false) 1000).map
        (fun r => r.last_active) = [some 1000] ∧
    (some 1000 : Option Int) ≠ none := by
  constructor
  · decide
  · decide

/-- C4 (amended): handling a departure performs no activity update on stored
rows — every already-tracked row keeps its `last_active` unchanged (only name
columns are coalesced) — while for a previously untracked non-bot user the
departure creates a row whose `last_active` is the upsert time `now` (not
NULL: the source INSERT populates it at creation). -/
theorem departure_spec (s : Store) (ev : TgUser) (now : Int) :
    (∀ (i : Nat) (r : UserRow), s[i]? = some r →
      ∃ r', (handle_left_member s ev now)[i]? = some r' ∧
        r'.last_active = r.last_active) ∧
    (ev.is_bot = false → get_user s ev.id = none →
      get_user (handle_left_member s ev now) ev.id =
        some (UserRow.mk ev.id ev.username ev.first_name ev.last_name (some now)
          none 0 none false)) := by
  constructor
  · intro i r h
    unfold handle_left_member upsert_user
    by_cases hb : ev.is_bot = true
    · rw [if_pos hb]
      exact ⟨r, h, rfl⟩
    · rw [if_neg hb]
      by_cases hany : (s.any fun x => x.user_id == ev.id) = true
      · rw [if_pos hany]
        refine ⟨_, by rw [List.getElem?_map, h]; rfl, ?_⟩
        by_cases hid : (r.user_id == ev.id) = true
        · simp [hid]
        · simp [hid]
      · rw [if_neg hany]
        have hlen : i < s.length := by
          rcases List.getElem?_eq_some_iff.mp h with ⟨hlt, _⟩
          exact hlt
        refine ⟨r, ?_, rfl⟩
        rw [List.getElem?_append_left hlen]
        exact h
  · intro hb hnone
    have hnone' : s.find? (fun x => x.user_id == ev.id) = none := hnone
    unfold handle_left_member upsert_user
    rw [hb]
    rw [if_neg Bool.false_ne_true]
    have hany : (s.any fun x => x.user_id == ev.id) = false :=
      List.any_eq_false.mpr (fun x hx hp => List.find?_eq_none.mp hnone' x hx hp)
    rw [if_neg (by simp [hany])]
    unfold get_user
    rw [List.find?_append, hnone', Option.none_or]
    rw [List.find?_cons_of_pos _ (by simp)]

/-- Witness for C4 (amended): an existing row (user 1, `last_active = 77`)
keeps its `last_active` through a departure that updates its username, and a
departure of untracked user 2 creates a row with `last_active = 1000`. -/
theorem departure_spec_witness :
    (∃ r', (handle_left_member
        [UserRow.mk 1 none none none (some 77) none 0 none false]
        (TgUser.mk 1 (some "bob") none none false) 999)[0]? = some r' ∧
      r'.last_active = some 77) ∧
    get_user (handle_left_member [] (TgUser.mk 2 none none none false) 1000) 2 =
      some (UserRow.mk 2 none none none (some 1000) none 0 none false) := by
  constructor
  · exact (departure_spec
      [UserRow.mk 1 none none none (some 77) none 0 none false]
      (TgUser.mk 1 (some "bob") none none false) 999).1 0
      (UserRow.mk 1 none none none (some 77) none 0 none false) rfl
  · exact (departure_spec [] (TgUser.mk 2 none none none false) 1000).2 rfl rfl

/-! ### C1: the rendered page count in the header -/

/-- An 11-user snapshot in which exactly user 0 is effectively inactive at
time 0 (window until `1000000`); used to exhibit the header page-count bug. -/
def c1_store : Store :=
  (List.range 11).map (fun n =>
    UserRow.mk (n : Int) none none none (some 0)
      (if n == 0 then some 1000000 else none) 0
      (if n == 0 then some 0 else none) false)

instance {e a : Type} [DecidableEq e] [DecidableEq a] : DecidableEq (Except e a) :=
  fun x y =>
    match x, y with
    | .error v, .error w =>
      decidable_of_iff (v = w) ⟨fun h => by rw [h], fun h => by cases h; rfl⟩
    | .error _, .ok _ => isFalse (fun hc => Except.noConfusion hc)
    | .ok _, .error _ => isFalse (fun hc => Except.noConfusion hc)
    | .ok v, .ok w =>
      decidable_of_iff (v = w) ⟨fun h => by rw [h], fun h => by cases h; rfl⟩

set_option maxRecDepth 8192 in
/-- C1 (code bug): on `c1_store` with `filter="inactive"`, the callback handler
renders the header line `Page 1 / 2`: `build_attendance_text` recomputes the
displayed `Y` from the aggregate `total_count` (11 rows → 2 pages of 10),
while the filtered list has exactly 1 row — `ceil(1/10) = 1` page, the value
the same handler uses for clamping and for the Next button of the keyboard.  The
spec rule `Y = ceil(filtered_count / page_size)` is therefore violated: the
displayed `Y` (2) exceeds the page count of the filtered list (1). -/
theorem header_total_pages_bug :
    (handle_attendance_callback c1_store "ATT|0|inactive|name" 0).2 =
      Except.ok ("<b>Attendance</b> — <i>inactive</i> — Sorted by <i>name</i>\n" ++
        "Active: <b>10</b>  |  Inactive: <b>1</b>  |  Total: <b>11</b>\n" ++
        "Page 1 / 2\n\n" ++ "user_0 | Inactive 11d 13h 46m") ∧
    build_total_pages (filter_and_sort_users
        (all_tracked_users (scan_and_mark_inactive_once c1_store 0))
        "inactive" "name" 0).length PAGE_SIZE = 1 ∧
    build_total_pages 11 PAGE_SIZE = 2 := by
  refine ⟨?_, ?_, ?_⟩
  · decide
  · decide
  · decide

end Attendance
